import Mathlib

/-!
Verification development for the youtube-automation repository.

The definitions below are a shallow embedding of the TypeScript sources:
`services/geminiService.ts` (the GenerationClient retry/backoff logic),
`services/videoService.ts` (`decodePcmData` and the per-slide duration use in
`createVideo`), and the main application component (the scene store
`updateScene`, the per-scene handlers, the asset-generation run with its
cancellation path, and the flat slide-duration computation).

Remote calls are modelled by oracle functions (one response per attempt / per
call), `await delay(...)` sleeps are recorded as data, and React state updates
(`setScenes`, `setError`) are modelled as explicit state passing.
-/

namespace YTAuto

/-! ### String helpers: JS `String.prototype.includes` and `toLowerCase`

Strings are compared through their code-point lists.  All the error messages
and patterns involved are ASCII, so `toLowerCase` is modelled as ASCII
lowercasing of the code points. -/

def codePoints (s : String) : List Nat := s.toList.map Char.toNat

/-- ASCII lowercasing of a code-point list (the JS `toLowerCase` on the
ASCII-only messages this system produces). -/
def lowerCodePoints (s : String) : List Nat :=
  (codePoints s).map (fun n => if 65 ≤ n && n ≤ 90 then n + 32 else n)

/-- Does the list `sub` occur as a prefix of `l`? -/
def listStartsWith : List Nat → List Nat → Bool
  | [], _ => true
  | _ :: _, [] => false
  | a :: as, b :: bs => a == b && listStartsWith as bs

/-- Does the list `sub` occur as a contiguous sublist of `l`? -/
def listContainsSub (sub : List Nat) : List Nat → Bool
  | [] => listStartsWith sub []
  | l@(_ :: t) => listStartsWith sub l || listContainsSub sub t

/-- JS `s.includes(sub)`: substring containment on strings. -/
def containsSub (s sub : String) : Bool :=
  listContainsSub (codePoints sub) (codePoints s)

/-- JS `s.toLowerCase().includes(sub)` for an (already lowercase) ASCII
pattern `sub`. -/
def containsSubLower (s sub : String) : Bool :=
  listContainsSub (codePoints sub) (lowerCodePoints s)

/-! ### GenerationClient error classification (geminiService.ts)

Every capability in `geminiService.ts` classifies a caught error message with
the same predicate:
`errorMessage.includes('RESOURCE_EXHAUSTED') || errorMessage.includes('"code":429')
 || errorMessage.toLowerCase().includes('quota exceeded')`. -/

def isRateLimitError (msg : String) : Bool :=
  containsSub msg "RESOURCE_EXHAUSTED" || containsSub msg "\"code\":429" ||
    containsSubLower msg "quota exceeded"

/-! ### The shared retry/backoff loop

All four capabilities use the same `while (attempt < maxRetries)` loop:
the body performs one remote attempt; on success it returns; in the catch
block `attempt` is incremented, rate-limit errors sleep a fixed backoff and
retry (or, once `attempt >= maxRetries`, fail with a billing/quota message),
and every other error is rethrown immediately.  The unreachable fall-through
after the loop throws a generic message.

The backend is modelled by an oracle `attempts : Nat → AttemptResult α` giving
the outcome of attempt number `a` (0-based).  The outcome records the result
and the list of backoff sleeps (in milliseconds) that were performed. -/

inductive AttemptResult (α : Type) where
  | ok (v : α)
  | err (msg : String)
deriving Repr

instance {ε α : Type} [DecidableEq ε] [DecidableEq α] : DecidableEq (Except ε α) := fun a b =>
  match a, b with
  | .ok x, .ok y =>
    if h : x = y then .isTrue (by rw [h]) else .isFalse (by intro he; cases he; exact h rfl)
  | .error x, .error y =>
    if h : x = y then .isTrue (by rw [h]) else .isFalse (by intro he; cases he; exact h rfl)
  | .ok _, .error _ => .isFalse (by intro he; cases he)
  | .error _, .ok _ => .isFalse (by intro he; cases he)

structure CallOutcome (α : Type) where
  result : Except String α
  sleeps : List Nat
deriving Repr, DecidableEq

/-- One iteration layer of the `while (attempt < maxRetries)` loop.  `fuel`
equals `maxRetries - attempt`, so the loop guard `attempt < maxRetries`
is exactly `fuel > 0`. -/
def runRetryGo {α : Type} (maxRetries backoffMs : Nat) (exhaustMsg loopExitMsg : String)
    (attempts : Nat → AttemptResult α) :
    Nat → Nat → List Nat → CallOutcome α
  | 0, _, sleeps => ⟨.error loopExitMsg, sleeps⟩
  | fuel + 1, attempt, sleeps =>
    match attempts attempt with
    | .ok v => ⟨.ok v, sleeps⟩
    | .err msg =>
      if isRateLimitError msg then
        if maxRetries ≤ attempt + 1 then ⟨.error exhaustMsg, sleeps⟩
        else
          runRetryGo maxRetries backoffMs exhaustMsg loopExitMsg attempts
            fuel (attempt + 1) (sleeps ++ [backoffMs])
      else ⟨.error msg, sleeps⟩

def runRetryLoop {α : Type} (maxRetries backoffMs : Nat) (exhaustMsg loopExitMsg : String)
    (attempts : Nat → AttemptResult α) : CallOutcome α :=
  runRetryGo maxRetries backoffMs exhaustMsg loopExitMsg attempts maxRetries 0 []

/-! ### generateStoryFromTopic -/

/-- Error messages of `generateStoryFromTopic` (verbatim from the source). -/
def storyShapeMsg : String :=
  "Failed to parse a sufficient number of scenes. The model response might be in an unexpected format or the topic too narrow."

def storyExhaustMsg : String :=
  "Rate limit or quota repeatedly exceeded while generating story. Please check your plan and billing details, wait a few minutes, and try again."

def storyLoopExitMsg : String :=
  "An unknown error occurred after multiple retries while generating the story."

/-- One backend response for the story capability: either the API call threw
(`apiError`), or it returned JSON whose `scenes` field is either absent /
not an array (`parsed none`) or an array of strings. -/
inductive StoryApiResponse where
  | apiError (msg : String)
  | parsed (scenes : Option (List String))

/-- The body of one attempt of `generateStoryFromTopic`: parse the response
and enforce `result.scenes.length < numScenes * 0.8 → throw`.  Since
`result.scenes.length` and `numScenes` are integers, the float comparison
`length < numScenes * 0.8` is equivalent to `5 * length < 4 * numScenes`
(exact for the slider range 5..25, where `numScenes * 0.8` evaluates to the
exact value in binary64). -/
def storyAttempt (numScenes : Nat) : StoryApiResponse → AttemptResult (List String)
  | .apiError msg => .err msg
  | .parsed none => .err storyShapeMsg
  | .parsed (some scenes) =>
    if 5 * scenes.length < 4 * numScenes then .err storyShapeMsg
    else .ok scenes

/-- `generateStoryFromTopic`, lines 13-74 of geminiService.ts: max 3 attempts,
65000 ms backoff on rate-limit errors. -/
def generateStoryFromTopic (numScenes : Nat) (responses : Nat → StoryApiResponse) :
    CallOutcome (List String) :=
  runRetryLoop 3 65000 storyExhaustMsg storyLoopExitMsg
    (fun attempt => storyAttempt numScenes (responses attempt))

/-! ### generatePromptsForScene -/

def promptsShapeMsg : String :=
  "Model did not return valid prompts in the expected format."

def promptsExhaustMsg : String :=
  "Rate limit or quota repeatedly exceeded while generating prompts. Please check your plan and billing details, wait a few minutes, and try again."

def promptsLoopExitMsg : String :=
  "An unknown error occurred after multiple retries while generating prompts."

inductive PromptsApiResponse where
  | apiError (msg : String)
  | parsed (prompts : Option (List String))

/-- One attempt of `generatePromptsForScene`: the `prompts` field must be a
non-empty array. -/
def promptsAttempt : PromptsApiResponse → AttemptResult (List String)
  | .apiError msg => .err msg
  | .parsed none => .err promptsShapeMsg
  | .parsed (some prompts) =>
    if prompts.length = 0 then .err promptsShapeMsg else .ok prompts

/-- `generatePromptsForScene`, lines 84-152: max 3 attempts, 65000 ms backoff. -/
def generatePromptsForScene (responses : Nat → PromptsApiResponse) :
    CallOutcome (List String) :=
  runRetryLoop 3 65000 promptsExhaustMsg promptsLoopExitMsg
    (fun attempt => promptsAttempt (responses attempt))

/-! ### generateImageFromPrompt -/

/-- Raw binary artifacts (JS `Blob`) are modelled as byte lists.  The byte
content of image blobs is produced in the source by `fetch(dataUrl).blob()`,
i.e. by the browser decoding the base64 payload; no claim inspects those
bytes, so the decoding itself is represented by the code points of the
base64 text. -/
abbrev Blob := List Nat

def imgBlockedMsg : String :=
  "Image generation failed: The model did not return an image. This may be due to safety filters or an issue with the prompt."

def imgExhaustMsg : String :=
  "Rate limit or quota repeatedly exceeded. This may be due to your API key\x27s quota. Please check your plan and billing details, wait a few minutes, and try again."

def imgLoopExitMsg : String :=
  "An unknown error occurred after multiple retries while generating an image."

structure ImgResult where
  dataUrl : String
  blob : Blob
deriving Repr, DecidableEq

/-- One backend response for the image capability: either the API call threw,
or it returned candidates in which a part with `inlineData` was found
(`parts (some (data, mimeType))`) or not (`parts none`, the content-blocked
case). -/
inductive ImageApiResponse where
  | apiError (msg : String)
  | parts (inline : Option (String × String))

/-- One attempt of `generateImageFromPrompt`, lines 170-214: a missing image
part throws the content-blocked message; otherwise the data URL is
assembled as in the source. -/
def imageAttempt : ImageApiResponse → AttemptResult ImgResult
  | .apiError msg => .err msg
  | .parts none => .err imgBlockedMsg
  | .parts (some (data, mimeType)) =>
    .ok ⟨"data:" ++ mimeType ++ ";base64," ++ data, data.toList.map Char.toNat⟩

/-- `generateImageFromPrompt`, lines 162-218: max 3 attempts, 91000 ms
backoff on rate-limit errors; all other errors are rethrown immediately. -/
def generateImageFromPrompt (responses : Nat → ImageApiResponse) :
    CallOutcome ImgResult :=
  runRetryLoop 3 91000 imgExhaustMsg imgLoopExitMsg
    (fun attempt => imageAttempt (responses attempt))

/-! ### generateAudioFromText -/

def audioShapeMsg : String :=
  "Audio generation failed: The model did not return audio data."

def audioExhaustMsg : String :=
  "Rate limit or quota repeatedly exceeded while generating audio. Please check your plan and billing details, wait a few minutes, and try again."

def audioLoopExitMsg : String :=
  "An unknown error occurred after multiple retries while generating audio."

inductive AudioApiResponse where
  | apiError (msg : String)
  | inlineData (base64Audio : Option String)

/-- One attempt of `generateAudioFromText`, lines 246-290: a missing (or
empty, hence falsy) `base64Audio` throws; otherwise the base64 text is
decoded into a PCM blob (`decode`/`atob`; the byte content is opaque to the
claims and represented by the code points of the base64 text). -/
def audioAttempt : AudioApiResponse → AttemptResult Blob
  | .apiError msg => .err msg
  | .inlineData none => .err audioShapeMsg
  | .inlineData (some base64Audio) =>
    if base64Audio = "" then .err audioShapeMsg
    else .ok (base64Audio.toList.map Char.toNat)

/-- `generateAudioFromText`, lines 238-293: max 3 attempts, 65000 ms backoff. -/
def generateAudioFromText (responses : Nat → AudioApiResponse) : CallOutcome Blob :=
  runRetryLoop 3 65000 audioExhaustMsg audioLoopExitMsg
    (fun attempt => audioAttempt (responses attempt))

/-! ### The Scene data model (types.ts) and the scene store (App)

React state updates are modelled by explicit state passing: the scene list
plays the role of the `scenes` state, and `setError` is brought out as an
explicit `Option String` banner value where a claim needs it. -/

structure Scene where
  id : Nat
  description : String
  prompts : List String
  imageUrls : List (Option String)
  imageBlobs : List (Option Blob)
  audioBlob : Option Blob
  isPromptLoading : Bool
  isImageLoading : Bool
  isAudioLoading : Bool
deriving Repr, DecidableEq

/-- A `Partial<Scene>` update object: present keys overwrite, absent keys are
kept.  The `id` key is never part of an update in the source. -/
structure SceneUpdate where
  description : Option String := none
  prompts : Option (List String) := none
  imageUrls : Option (List (Option String)) := none
  imageBlobs : Option (List (Option Blob)) := none
  audioBlob : Option (Option Blob) := none
  isPromptLoading : Option Bool := none
  isImageLoading : Option Bool := none
  isAudioLoading : Option Bool := none
deriving Repr, DecidableEq

/-- JS object spread `{ ...s, ...updates }`. -/
def applyUpdate (s : Scene) (u : SceneUpdate) : Scene :=
  { id := s.id
    description := u.description.getD s.description
    prompts := u.prompts.getD s.prompts
    imageUrls := u.imageUrls.getD s.imageUrls
    imageBlobs := u.imageBlobs.getD s.imageBlobs
    audioBlob := u.audioBlob.getD s.audioBlob
    isPromptLoading := u.isPromptLoading.getD s.isPromptLoading
    isImageLoading := u.isImageLoading.getD s.isImageLoading
    isAudioLoading := u.isAudioLoading.getD s.isAudioLoading }

/-- `updateScene` (App, lines 136-140):
`setScenes(prev => prev.map(s => s.id === sceneId ? { ...s, ...updates } : s))`. -/
def updateScene (scenes : List Scene) (sceneId : Nat) (updates : SceneUpdate) :
    List Scene :=
  scenes.map (fun s => if s.id == sceneId then applyUpdate s updates else s)

/-! ### Handlers for per-scene prompt and image generation -/

/-- `handleGeneratePromptsForScene` (App, lines 251-270).  The remote
`generatePromptsForScene(scene.description, numVariations, apiKey)` call is
supplied as an oracle outcome.  On success the handler stores the new
prompts and clears the image arrays to `[]`; on failure it calls
`handleApiError` and rethrows; the `finally` block always resets the busy
flag. -/
def handleGeneratePromptsForScene (scenes : List Scene) (sceneId : Nat)
    (promptsOutcome : Except String (List String)) :
    List Scene × Except String Unit :=
  match scenes.find? (fun s => s.id == sceneId) with
  | none => (scenes, .ok ())
  | some _ =>
    let scenes1 := updateScene scenes sceneId { isPromptLoading := some true }
    match promptsOutcome with
    | .ok prompts =>
      let scenes2 := updateScene scenes1 sceneId
        { prompts := some prompts, imageUrls := some [], imageBlobs := some [] }
      (updateScene scenes2 sceneId { isPromptLoading := some false }, .ok ())
    | .error msg =>
      (updateScene scenes1 sceneId { isPromptLoading := some false }, .error msg)

/-- `handleClearSceneImages` (App, lines 272-277): both image arrays are
replaced by `Array(numVariations).fill(null)`. -/
def handleClearSceneImages (scenes : List Scene) (sceneId numVariations : Nat) :
    List Scene :=
  updateScene scenes sceneId
    { imageUrls := some (List.replicate numVariations none)
      imageBlobs := some (List.replicate numVariations none) }

/-- JS truthiness of an image slot (`if (newImageUrls[i]) continue`): a slot
holds a string, and an absent/`null`/empty-string entry is falsy. -/
def slotFilled : Option String → Bool
  | some s => !(s == "")
  | none => false

/-- JS array index assignment `a[i] = v`: within bounds it overwrites, past
the end it extends the array, padding the gap with holes (read back as
`undefined`, i.e. `none`). -/
def jsSet {α : Type} : List (Option α) → Nat → α → List (Option α)
  | [], 0, v => [some v]
  | [], n + 1, v => none :: jsSet [] n v
  | _ :: t, 0, v => some v :: t
  | h :: t, n + 1, v => h :: jsSet t n v

/-- The image-array update written by the image loop. -/
def imgUpd (urls : List (Option String)) (blobs : List (Option Blob)) : SceneUpdate :=
  { imageUrls := some urls, imageBlobs := some blobs }

/-- Sequential composition of two partial updates (the later one wins on the
keys it carries), used to collapse consecutive `updateScene` calls. -/
def SceneUpdate.merge (u1 u2 : SceneUpdate) : SceneUpdate :=
  { description := u2.description.orElse (fun _ => u1.description)
    prompts := u2.prompts.orElse (fun _ => u1.prompts)
    imageUrls := u2.imageUrls.orElse (fun _ => u1.imageUrls)
    imageBlobs := u2.imageBlobs.orElse (fun _ => u1.imageBlobs)
    audioBlob := u2.audioBlob.orElse (fun _ => u1.audioBlob)
    isPromptLoading := u2.isPromptLoading.orElse (fun _ => u1.isPromptLoading)
    isImageLoading := u2.isImageLoading.orElse (fun _ => u1.isImageLoading)
    isAudioLoading := u2.isAudioLoading.orElse (fun _ => u1.isAudioLoading) }

/-- `new` preserves every slot of `old` that is filled (truthy): filled slots
are never overwritten. -/
def slotsPreserved (old new : List (Option String)) : Prop :=
  ∀ j : Nat, slotFilled (old.getD j none) = true → new.getD j none = old.getD j none

/-- Store-level retention: positionwise, ids and prompts are kept and every
filled image slot keeps its value. -/
def storeSlotsPreserved (old new : List Scene) : Prop :=
  new.length = old.length ∧
  ∀ (k : Nat) (s : Scene), old[k]? = some s →
    ∃ s', new[k]? = some s' ∧ s'.id = s.id ∧ s'.prompts = s.prompts ∧
      ∀ j : Nat, slotFilled (s.imageUrls.getD j none) = true →
        s'.imageUrls.getD j none = s.imageUrls.getD j none

/-- The loop body of `handleGenerateImagesForScene` (App, lines 294-314),
iterating over the prompt indices.  `cf c` is the value of
`isCancelledRef.current` when `c` remote image calls have completed (the
user may set it at any await point; it is read at the top of each
iteration).  `gen c p` is the outcome of the `c`-th
`generateImageFromPrompt(p, orientation, apiKey)` call.  The progress
reporting (`setProgress`) and the 4000 ms pacing delay after each call do
not affect the store and are omitted.  The returned triple is the store,
the completed remote-call count, and the normal/thrown outcome. -/
def genImagesLoop (cf : Nat → Bool) (gen : Nat → String → Except String ImgResult)
    (sceneId : Nat) (prompts : List String) :
    List Nat → List (Option String) → List (Option Blob) → List Scene → Nat →
    List Scene × Nat × Except String Unit
  | [], _, _, scenes, calls => (scenes, calls, .ok ())
  | i :: rest, urls, blobs, scenes, calls =>
    if cf calls then (scenes, calls, .error "Operation cancelled.")
    else if slotFilled (urls.getD i none) then
      genImagesLoop cf gen sceneId prompts rest urls blobs scenes calls
    else
      match gen calls (prompts.getD i "") with
      | .error msg => (scenes, calls + 1, .error msg)
      | .ok r =>
        let urls2 := jsSet urls i r.dataUrl
        let blobs2 := jsSet blobs i r.blob
        genImagesLoop cf gen sceneId prompts rest urls2 blobs2
          (updateScene scenes sceneId (imgUpd urls2 blobs2)) (calls + 1)

/-- `handleGenerateImagesForScene` (App, lines 279-321): look up the scene,
bail out if it is missing or has no prompts, set the busy flag, copy the
image arrays, run the loop over all prompt indices, and reset the busy flag
in the `finally` block.  On a thrown error the source additionally calls
`handleApiError` (modelled separately as a pure banner function) and
rethrows. -/
def handleGenerateImagesForScene (cf : Nat → Bool)
    (gen : Nat → String → Except String ImgResult)
    (scenes : List Scene) (sceneId : Nat) (calls : Nat) :
    List Scene × Nat × Except String Unit :=
  match scenes.find? (fun s => s.id == sceneId) with
  | none => (scenes, calls, .ok ())
  | some scene =>
    if scene.prompts.length = 0 then (scenes, calls, .ok ())
    else
      let scenes1 := updateScene scenes sceneId { isImageLoading := some true }
      let res := genImagesLoop cf gen sceneId scene.prompts
        (List.range scene.prompts.length) scene.imageUrls scene.imageBlobs scenes1 calls
      (updateScene res.1 sceneId { isImageLoading := some false }, res.2.1, res.2.2)

/-! ### The asset-generation run: images stage, cancellation, error surfacing -/

/-- The images stage of `handleGenerateAssets` (App, lines 382-389): iterate
the scene ids in store order, checking the cancellation flag at the top of
each iteration, and propagate the first thrown error. -/
def imagesStage (cf : Nat → Bool) (gen : Nat → String → Except String ImgResult) :
    List Nat → List Scene → Nat → List Scene × Nat × Except String Unit
  | [], scenes, calls => (scenes, calls, .ok ())
  | sceneId :: rest, scenes, calls =>
    if cf calls then (scenes, calls, .error "Operation cancelled.")
    else
      match handleGenerateImagesForScene cf gen scenes sceneId calls with
      | (scenes2, calls2, .ok _) => imagesStage cf gen rest scenes2 calls2
      | (scenes2, calls2, .error msg) => (scenes2, calls2, .error msg)

/-- The update applied to every scene by the cancel path of
`handleGenerateAssets` (App, line 332). -/
def clearFlagsUpd : SceneUpdate :=
  { isImageLoading := some false, isPromptLoading := some false,
    isAudioLoading := some false }

/-- The cancel path of `handleGenerateAssets` (App, lines 326-334), taken
when the button is pressed while a run is active: set the cancellation
flag, stop the loading UI, set the error banner to
"Process cancelled by user.", and force-clear all three busy flags on every
scene.  Returns the updated store and the banner value. -/
def cancelAssetsRun (scenes : List Scene) : List Scene × Option String :=
  (scenes.foldl (fun st s => updateScene st s.id clearFlagsUpd) scenes,
    some "Process cancelled by user.")

/-- `handleApiError` (App, lines 154-182): the banner message set for a
thrown error message (every branch sets one). -/
def handleApiError (msg : String) : String :=
  if containsSubLower msg "api key not valid" || containsSubLower msg "api_key_invalid" then
    "Your API key is invalid. Please refresh and enter a valid key."
  else if containsSubLower msg "resource_exhausted" || containsSubLower msg "rate limit" ||
      containsSubLower msg "\"code\":429" then
    "Rate limit exceeded. This is likely due to your API key\x27s usage quota. Please check your plan, wait a few minutes, and try again."
  else if containsSubLower msg "safety filters" || containsSubLower msg "prompt was blocked" ||
      (containsSubLower msg "did not return an image" && containsSubLower msg "generation failed") then
    "An asset could not be generated due to AI safety filters, likely because the topic or a prompt was deemed too sensitive. The process was stopped."
  else if containsSubLower msg "billing is not enabled" then
    "Billing is not enabled for your project. Please visit your Google Cloud project console to enable billing for your API key."
  else msg

/-- The catch block of `handleGenerateAssets` (App, lines 392-399): an error
message containing "cancelled" (or "API key not valid") leaves the banner
unchanged; any other message is surfaced. -/
def assetsCatch (errorMsg : String) (banner : Option String) : Option String :=
  if containsSub errorMsg "cancelled" then banner
  else if containsSub errorMsg "API key not valid" then banner
  else some errorMsg

/-- The spec's end-to-end cancellation scenario: 8 scenes, one prompt each,
no images yet. -/
def scenarioScenes : List Scene :=
  (List.range 8).map (fun i =>
    ⟨i + 1, "scene", ["prompt"], [], [], none, false, false, false⟩)

/-! ### AudioDecoder: decodePcmData (videoService.ts, lines 20-37) -/

/-- Reinterpret two little-endian bytes as a 16-bit signed integer (one
element of the `Int16Array` view). -/
def toInt16 (lo hi : Nat) : Int :=
  let u := lo % 256 + 256 * (hi % 256)
  if u < 32768 then (u : Int) else (u : Int) - 65536

/-- `new Int16Array(data)`: the byte buffer viewed as 16-bit little-endian
signed samples. -/
def bytesToInt16 : List Nat → List Int
  | lo :: hi :: rest => toInt16 lo hi :: bytesToInt16 rest
  | _ => []

/-- The decoded `AudioBuffer`: per-channel sample data (exact rationals; the
source's float division by the power of two 32768 is exact in binary64)
plus the creation parameters. -/
structure AudioBufferM where
  sampleRate : Nat
  numChannels : Nat
  frameCount : Nat
  channels : List (List ℚ)
deriving Repr, DecidableEq

/-- `AudioBuffer.duration = length / sampleRate`. -/
def AudioBufferM.duration (b : AudioBufferM) : ℚ :=
  (b.frameCount : ℚ) / (b.sampleRate : ℚ)

/-- `decodePcmData(data, ctx, sampleRate = 24000, numChannels = 1)`:
`frameCount = dataInt16.length / numChannels`, and channel `c` sample `i`
is `dataInt16[i * numChannels + c] / 32768.0`. -/
def decodePcmData (data : List Nat) (sampleRate numChannels : Nat) : AudioBufferM :=
  let dataInt16 := bytesToInt16 data
  let frameCount := dataInt16.length / numChannels
  { sampleRate := sampleRate
    numChannels := numChannels
    frameCount := frameCount
    channels := (List.range numChannels).map (fun channel =>
      (List.range frameCount).map (fun i =>
        ((dataInt16.getD (i * numChannels + channel) 0 : ℤ) : ℚ) / 32768)) }

/-! ### Slide durations: the App duration effect and createVideo -/

/-- `parseFloat(x.toFixed(2))`: round to the nearest hundredth. -/
def round2 (q : ℚ) : ℚ := (round (q * 100) : ℤ) / 100

/-- JS truthiness of `sceneAudioDurations[scene.id]`: present and nonzero. -/
def jsTruthyQ : Option ℚ → Bool
  | some d => !(d == 0)
  | none => false

/-- The per-scene slice of `flatDurations` built by the App effect
(lines 601-624): scenes with no generated image contribute nothing; with
narration enabled and a truthy recorded audio duration, the first slide
gets the audio duration rounded to two decimals and the remaining slides
the default `secondsPerImage`; otherwise every slide gets the default. -/
def sceneDurations (isTtsEnabled : Bool) (sceneAudioDurations : Nat → Option ℚ)
    (secondsPerImage : ℚ) (scene : Scene) : List ℚ :=
  let sceneImages := scene.imageBlobs.filter (fun b => b.isSome)
  if sceneImages.length > 0 then
    let audioDuration := sceneAudioDurations scene.id
    if isTtsEnabled && jsTruthyQ audioDuration then
      round2 (audioDuration.getD 0) :: List.replicate (sceneImages.length - 1) secondsPerImage
    else
      List.replicate sceneImages.length secondsPerImage
  else []

/-- `imageDurations` as recomputed by the effect once all images exist. -/
def computeFlatDurations (scenes : List Scene) (isTtsEnabled : Bool)
    (sceneAudioDurations : Nat → Option ℚ) (secondsPerImage : ℚ) : List ℚ :=
  scenes.flatMap (sceneDurations isTtsEnabled sceneAudioDurations secondsPerImage)

/-- The per-scene slice of `correspondingAudioBlobs` built by
`handleGenerateVideo` (App, lines 535-538): the scene's narration blob is
attached to its first populated image slot, `null` to the rest. -/
def sceneSlideAudio (scene : Scene) : List (Option Blob) :=
  (List.range (scene.imageBlobs.filter (fun b => b.isSome)).length).map
    (fun index => if index == 0 then scene.audioBlob else none)

/-- The full `audioBlobs` argument passed to `createVideo`. -/
def correspondingAudioBlobs (scenes : List Scene) : List (Option Blob) :=
  scenes.flatMap sceneSlideAudio

/-- The rendered duration of each slide inside `createVideo`
(videoService.ts, line 204): `durationMs = durations[i] * 1000`, used
verbatim for both the animated and the static path; the attached audio is
started but never consulted for the slide duration. -/
def createVideoSlideDurationsMs (durations : List ℚ) : List ℚ :=
  durations.map (fun d => d * 1000)

/-! ### Generic lemmas about the retry loop -/

/-- A successful outcome of the retry loop can only come from a successful
attempt. -/
theorem runRetryGo_ok_exists {α : Type} (maxRetries backoffMs : Nat)
    (exhaustMsg loopExitMsg : String) (attempts : Nat → AttemptResult α)
    (fuel attempt : Nat) (sleeps : List Nat) (v : α)
    (h : (runRetryGo maxRetries backoffMs exhaustMsg loopExitMsg attempts
            fuel attempt sleeps).result = .ok v) :
    ∃ a, attempts a = .ok v := by
  induction fuel generalizing attempt sleeps with
  | zero => simp [runRetryGo] at h
  | succ n ih =>
    rw [runRetryGo] at h
    cases hA : attempts attempt with
    | ok w =>
      rw [hA] at h
      simp at h
      exact ⟨attempt, by rw [hA, h]⟩
    | err msg =>
      rw [hA] at h
      dsimp only at h
      by_cases hr : isRateLimitError msg
      · rw [if_pos hr] at h
        by_cases hm : maxRetries ≤ attempt + 1
        · rw [if_pos hm] at h; simp at h
        · rw [if_neg hm] at h
          exact ih (attempt + 1) (sleeps ++ [backoffMs]) h
      · rw [if_neg hr] at h; simp at h

/-- Step lemma: a successful attempt ends the loop with the value. -/
theorem runRetryGo_ok_step {α : Type} {maxRetries backoffMs : Nat}
    {exhaustMsg loopExitMsg : String} {attempts : Nat → AttemptResult α}
    {fuel attempt : Nat} {sleeps : List Nat} {v : α}
    (h : attempts attempt = .ok v) :
    runRetryGo maxRetries backoffMs exhaustMsg loopExitMsg attempts
      (fuel + 1) attempt sleeps = ⟨.ok v, sleeps⟩ := by
  rw [runRetryGo, h]

/-- Step lemma: a non-rate-limit error is rethrown immediately. -/
theorem runRetryGo_err_stop {α : Type} {maxRetries backoffMs : Nat}
    {exhaustMsg loopExitMsg : String} {attempts : Nat → AttemptResult α}
    {fuel attempt : Nat} {sleeps : List Nat} {msg : String}
    (h : attempts attempt = .err msg) (hnr : isRateLimitError msg = false) :
    runRetryGo maxRetries backoffMs exhaustMsg loopExitMsg attempts
      (fuel + 1) attempt sleeps = ⟨.error msg, sleeps⟩ := by
  rw [runRetryGo, h]
  dsimp only
  rw [if_neg (by simp [hnr])]

/-- Step lemma: a rate-limit error below the attempt cap sleeps the backoff
window and retries. -/
theorem runRetryGo_err_retry {α : Type} {maxRetries backoffMs : Nat}
    {exhaustMsg loopExitMsg : String} {attempts : Nat → AttemptResult α}
    {fuel attempt : Nat} {sleeps : List Nat} {msg : String}
    (h : attempts attempt = .err msg) (hr : isRateLimitError msg = true)
    (hlt : ¬ maxRetries ≤ attempt + 1) :
    runRetryGo maxRetries backoffMs exhaustMsg loopExitMsg attempts
      (fuel + 1) attempt sleeps =
    runRetryGo maxRetries backoffMs exhaustMsg loopExitMsg attempts
      fuel (attempt + 1) (sleeps ++ [backoffMs]) := by
  rw [runRetryGo, h]
  dsimp only
  rw [if_pos hr, if_neg hlt]

/-- Step lemma: a rate-limit error at the attempt cap fails with the
billing/quota message. -/
theorem runRetryGo_err_exhaust {α : Type} {maxRetries backoffMs : Nat}
    {exhaustMsg loopExitMsg : String} {attempts : Nat → AttemptResult α}
    {fuel attempt : Nat} {sleeps : List Nat} {msg : String}
    (h : attempts attempt = .err msg) (hr : isRateLimitError msg = true)
    (hge : maxRetries ≤ attempt + 1) :
    runRetryGo maxRetries backoffMs exhaustMsg loopExitMsg attempts
      (fuel + 1) attempt sleeps = ⟨.error exhaustMsg, sleeps⟩ := by
  rw [runRetryGo, h]
  dsimp only
  rw [if_pos hr, if_pos hge]

/-- A 3-attempt call whose first attempt fails with a non-rate-limit error
rethrows it at once: no sleep, no further attempt. -/
theorem runRetryLoop_first_err_stop {α : Type} (backoffMs : Nat)
    (exhaustMsg loopExitMsg : String) (attempts : Nat → AttemptResult α)
    (msg : String) (h0 : attempts 0 = .err msg) (hnr : isRateLimitError msg = false) :
    runRetryLoop 3 backoffMs exhaustMsg loopExitMsg attempts = ⟨.error msg, []⟩ := by
  unfold runRetryLoop
  simpa using @runRetryGo_err_stop α 3 backoffMs exhaustMsg loopExitMsg attempts
    2 0 [] msg h0 hnr

/-- A 3-attempt call that is rate-limited twice and succeeds on the third
attempt returns the success after exactly two backoff sleeps. -/
theorem runRetryLoop_retry_retry_ok {α : Type} (backoffMs : Nat)
    (exhaustMsg loopExitMsg : String) (attempts : Nat → AttemptResult α)
    (m1 m2 : String) (v : α)
    (h0 : attempts 0 = .err m1) (hr1 : isRateLimitError m1 = true)
    (h1 : attempts 1 = .err m2) (hr2 : isRateLimitError m2 = true)
    (h2 : attempts 2 = .ok v) :
    runRetryLoop 3 backoffMs exhaustMsg loopExitMsg attempts
      = ⟨.ok v, [backoffMs, backoffMs]⟩ := by
  unfold runRetryLoop
  calc runRetryGo 3 backoffMs exhaustMsg loopExitMsg attempts 3 0 []
      = runRetryGo 3 backoffMs exhaustMsg loopExitMsg attempts 2 1 [backoffMs] := by
        simpa using @runRetryGo_err_retry α 3 backoffMs exhaustMsg loopExitMsg attempts
          2 0 [] m1 h0 hr1 (by omega)
    _ = runRetryGo 3 backoffMs exhaustMsg loopExitMsg attempts 1 2
          [backoffMs, backoffMs] := by
        simpa using @runRetryGo_err_retry α 3 backoffMs exhaustMsg loopExitMsg attempts
          1 1 [backoffMs] m2 h1 hr2 (by omega)
    _ = ⟨.ok v, [backoffMs, backoffMs]⟩ := by
        simpa using @runRetryGo_ok_step α 3 backoffMs exhaustMsg loopExitMsg attempts
          0 2 [backoffMs, backoffMs] v h2

/-- A 3-attempt call that is rate-limited on all three attempts fails with
the billing/quota message after exactly two backoff sleeps. -/
theorem runRetryLoop_rate_limited_exhaust {α : Type} (backoffMs : Nat)
    (exhaustMsg loopExitMsg : String) (attempts : Nat → AttemptResult α)
    (m1 m2 m3 : String)
    (h0 : attempts 0 = .err m1) (hr1 : isRateLimitError m1 = true)
    (h1 : attempts 1 = .err m2) (hr2 : isRateLimitError m2 = true)
    (h2 : attempts 2 = .err m3) (hr3 : isRateLimitError m3 = true) :
    runRetryLoop 3 backoffMs exhaustMsg loopExitMsg attempts
      = ⟨.error exhaustMsg, [backoffMs, backoffMs]⟩ := by
  unfold runRetryLoop
  calc runRetryGo 3 backoffMs exhaustMsg loopExitMsg attempts 3 0 []
      = runRetryGo 3 backoffMs exhaustMsg loopExitMsg attempts 2 1 [backoffMs] := by
        simpa using @runRetryGo_err_retry α 3 backoffMs exhaustMsg loopExitMsg attempts
          2 0 [] m1 h0 hr1 (by omega)
    _ = runRetryGo 3 backoffMs exhaustMsg loopExitMsg attempts 1 2
          [backoffMs, backoffMs] := by
        simpa using @runRetryGo_err_retry α 3 backoffMs exhaustMsg loopExitMsg attempts
          1 1 [backoffMs] m2 h1 hr2 (by omega)
    _ = ⟨.error exhaustMsg, [backoffMs, backoffMs]⟩ := by
        simpa using @runRetryGo_err_exhaust α 3 backoffMs exhaustMsg loopExitMsg attempts
          0 2 [backoffMs, backoffMs] m3 h2 hr3 (by omega)

/-! ## Claim C1 -/

/-- **C1, counterexample.**  The claim states that a successful story
generation satisfies `len(scenes) ≥ max(5, 0.8 × N)`.  For a requested
count of `N = 5` scenes the claimed bound is `max 5 4 = 5`, but the source
only checks `scenes.length < numScenes * 0.8`, so a 4-scene response is
returned successfully — with fewer scenes than the claimed floor and no
`InvalidResponseShape` failure. -/
theorem c1_counterexample :
    (generateStoryFromTopic 5
        (fun _ => .parsed (some ["s1", "s2", "s3", "s4"]))).result
      = Except.ok ["s1", "s2", "s3", "s4"] ∧
    List.length ["s1", "s2", "s3", "s4"] < max 5 4 := by
  constructor
  · decide
  · decide

/-- **C1 (amended).**  For every successful story generation with requested
scene count `N`, the returned scene list satisfies
`scenes.length ≥ 0.8 × N` (as integers, `4 * N ≤ 5 * scenes.length`); there
is no separate floor of 5.  Conversely, a first-attempt response whose
scene list is below the 80% threshold makes the call fail immediately with
the invalid-response-shape message, with no retry and no backoff sleep. -/
theorem c1_story_count_amended :
    (∀ (numScenes : Nat) (responses : Nat → StoryApiResponse) (scenes : List String),
        (generateStoryFromTopic numScenes responses).result = Except.ok scenes →
        4 * numScenes ≤ 5 * scenes.length) ∧
    (∀ (numScenes : Nat) (responses : Nat → StoryApiResponse) (scenes0 : List String),
        responses 0 = StoryApiResponse.parsed (some scenes0) →
        5 * scenes0.length < 4 * numScenes →
        generateStoryFromTopic numScenes responses = ⟨Except.error storyShapeMsg, []⟩) := by
  constructor
  · intro numScenes responses scenes h
    obtain ⟨a, ha⟩ := runRetryGo_ok_exists _ _ _ _ _ _ _ _ _ h
    cases hr : responses a with
    | apiError m => rw [hr] at ha; simp [storyAttempt] at ha
    | parsed o =>
      cases o with
      | none => rw [hr] at ha; simp [storyAttempt] at ha
      | some s =>
        rw [hr] at ha
        by_cases hlt : 5 * s.length < 4 * numScenes
        · simp [storyAttempt, hlt] at ha
        · simp [storyAttempt, hlt] at ha
          subst ha
          omega
  · intro numScenes responses scenes0 h0 hlt
    refine runRetryLoop_first_err_stop _ _ _ _ _ ?_ (by decide)
    show storyAttempt numScenes (responses 0) = .err storyShapeMsg
    rw [h0]
    simp only [storyAttempt]
    rw [if_pos hlt]

/-- **C1, witness.** -/
theorem c1_story_count_amended_witness :
    4 * 12 ≤ 5 * (List.length ["a", "b", "c", "d", "e", "f", "g", "h", "i", "j"]) ∧
    generateStoryFromTopic 12 (fun _ => .parsed (some ["a", "b"]))
      = ⟨Except.error storyShapeMsg, []⟩ :=
  ⟨c1_story_count_amended.1 12
      (fun _ => .parsed (some ["a", "b", "c", "d", "e", "f", "g", "h", "i", "j"]))
      ["a", "b", "c", "d", "e", "f", "g", "h", "i", "j"] (by decide),
    c1_story_count_amended.2 12 (fun _ => .parsed (some ["a", "b"])) ["a", "b"]
      rfl (by decide)⟩

/-! ## Claim C3 -/

/-- **C3 (confirmed).**  For every GenerationClient capability (story,
prompts, audio, image): two rate-limited attempts followed by a successful
third attempt return the successful result after exactly two backoff sleeps
(65000 ms for the text capabilities, 91000 ms for image generation); three
rate-limited attempts fail with the capability's rate-limit message after
the same two sleeps, and each of those messages directs the caller to check
billing ("Please check your plan and billing details ..."). -/
theorem c3_rate_limit_retry_and_backoff (m1 m2 m3 : String)
    (h1 : isRateLimitError m1 = true) (h2 : isRateLimitError m2 = true)
    (h3 : isRateLimitError m3 = true) :
    (∀ (numScenes : Nat) (scenes : List String), 4 * numScenes ≤ 5 * scenes.length →
      generateStoryFromTopic numScenes
        (fun a => if a = 0 then .apiError m1 else if a = 1 then .apiError m2
          else .parsed (some scenes)) = ⟨.ok scenes, [65000, 65000]⟩) ∧
    (∀ prompts : List String, prompts.length ≠ 0 →
      generatePromptsForScene
        (fun a => if a = 0 then .apiError m1 else if a = 1 then .apiError m2
          else .parsed (some prompts)) = ⟨.ok prompts, [65000, 65000]⟩) ∧
    (∀ base64Audio : String, base64Audio ≠ "" →
      generateAudioFromText
        (fun a => if a = 0 then .apiError m1 else if a = 1 then .apiError m2
          else .inlineData (some base64Audio))
        = ⟨.ok (base64Audio.toList.map Char.toNat), [65000, 65000]⟩) ∧
    (∀ data mimeType : String,
      generateImageFromPrompt
        (fun a => if a = 0 then .apiError m1 else if a = 1 then .apiError m2
          else .parts (some (data, mimeType)))
        = ⟨.ok ⟨"data:" ++ mimeType ++ ";base64," ++ data, data.toList.map Char.toNat⟩,
            [91000, 91000]⟩) ∧
    (∀ numScenes : Nat,
      generateStoryFromTopic numScenes
        (fun a => if a = 0 then .apiError m1 else if a = 1 then .apiError m2
          else .apiError m3) = ⟨.error storyExhaustMsg, [65000, 65000]⟩) ∧
    (generatePromptsForScene
        (fun a => if a = 0 then .apiError m1 else if a = 1 then .apiError m2
          else .apiError m3) = ⟨.error promptsExhaustMsg, [65000, 65000]⟩) ∧
    (generateAudioFromText
        (fun a => if a = 0 then .apiError m1 else if a = 1 then .apiError m2
          else .apiError m3) = ⟨.error audioExhaustMsg, [65000, 65000]⟩) ∧
    (generateImageFromPrompt
        (fun a => if a = 0 then .apiError m1 else if a = 1 then .apiError m2
          else .apiError m3) = ⟨.error imgExhaustMsg, [91000, 91000]⟩) ∧
    containsSub storyExhaustMsg "billing" = true ∧
    containsSub promptsExhaustMsg "billing" = true ∧
    containsSub audioExhaustMsg "billing" = true ∧
    containsSub imgExhaustMsg "billing" = true := by
  refine ⟨?_, ?_, ?_, ?_, ?_, ?_, ?_, ?_, by decide, by decide, by decide, by decide⟩
  · intro numScenes scenes hlen
    refine runRetryLoop_retry_retry_ok _ _ _ _ m1 m2 scenes rfl h1 rfl h2 ?_
    show storyAttempt numScenes (.parsed (some scenes)) = .ok scenes
    simp only [storyAttempt]
    rw [if_neg (by omega)]
  · intro prompts hne
    refine runRetryLoop_retry_retry_ok _ _ _ _ m1 m2 prompts rfl h1 rfl h2 ?_
    show promptsAttempt (.parsed (some prompts)) = .ok prompts
    simp only [promptsAttempt]
    rw [if_neg hne]
  · intro base64Audio hne
    refine runRetryLoop_retry_retry_ok _ _ _ _ m1 m2 _ rfl h1 rfl h2 ?_
    show audioAttempt (.inlineData (some base64Audio))
      = .ok (base64Audio.toList.map Char.toNat)
    simp only [audioAttempt]
    rw [if_neg hne]
  · intro data mimeType
    exact runRetryLoop_retry_retry_ok _ _ _ _ m1 m2 _ rfl h1 rfl h2 rfl
  · intro numScenes
    exact runRetryLoop_rate_limited_exhaust _ _ _ _ m1 m2 m3 rfl h1 rfl h2 rfl h3
  · exact runRetryLoop_rate_limited_exhaust _ _ _ _ m1 m2 m3 rfl h1 rfl h2 rfl h3
  · exact runRetryLoop_rate_limited_exhaust _ _ _ _ m1 m2 m3 rfl h1 rfl h2 rfl h3
  · exact runRetryLoop_rate_limited_exhaust _ _ _ _ m1 m2 m3 rfl h1 rfl h2 rfl h3

/-- **C3, witness.** -/
theorem c3_rate_limit_retry_and_backoff_witness :
    generateStoryFromTopic 12
      (fun a => if a = 0 then .apiError "RESOURCE_EXHAUSTED"
        else if a = 1 then .apiError "\"code\":429"
        else .parsed (some ["a", "b", "c", "d", "e", "f", "g", "h", "i", "j"]))
      = ⟨.ok ["a", "b", "c", "d", "e", "f", "g", "h", "i", "j"], [65000, 65000]⟩ ∧
    generateImageFromPrompt
      (fun a => if a = 0 then .apiError "RESOURCE_EXHAUSTED"
        else if a = 1 then .apiError "\"code\":429"
        else .apiError "quota exceeded")
      = ⟨.error imgExhaustMsg, [91000, 91000]⟩ :=
  ⟨(c3_rate_limit_retry_and_backoff "RESOURCE_EXHAUSTED" "\"code\":429" "quota exceeded"
      (by decide) (by decide) (by decide)).1 12
      ["a", "b", "c", "d", "e", "f", "g", "h", "i", "j"] (by decide),
    (c3_rate_limit_retry_and_backoff "RESOURCE_EXHAUSTED" "\"code\":429" "quota exceeded"
      (by decide) (by decide) (by decide)).2.2.2.2.2.2.2.1⟩

/-! ## Claim C8 -/

/-- **C8 (confirmed).**  For every GenerationClient capability, a
content-blocked or other non-rate-limit failure on the first attempt makes
the call fail immediately with that error: no backoff sleep is performed
and no further attempt is consulted (the outcome is fixed by the
first-attempt response alone, for arbitrary later responses).  The
content-blocked message of the image capability is itself not classified as
a rate-limit error. -/
theorem c8_non_rate_limit_fail_fast :
    (∀ responses : Nat → ImageApiResponse, responses 0 = .parts none →
      generateImageFromPrompt responses = ⟨.error imgBlockedMsg, []⟩) ∧
    (∀ (m : String) (responses : Nat → ImageApiResponse), isRateLimitError m = false →
      responses 0 = .apiError m → generateImageFromPrompt responses = ⟨.error m, []⟩) ∧
    (∀ (numScenes : Nat) (m : String) (responses : Nat → StoryApiResponse),
      isRateLimitError m = false → responses 0 = .apiError m →
      generateStoryFromTopic numScenes responses = ⟨.error m, []⟩) ∧
    (∀ (m : String) (responses : Nat → PromptsApiResponse), isRateLimitError m = false →
      responses 0 = .apiError m → generatePromptsForScene responses = ⟨.error m, []⟩) ∧
    (∀ (m : String) (responses : Nat → AudioApiResponse), isRateLimitError m = false →
      responses 0 = .apiError m → generateAudioFromText responses = ⟨.error m, []⟩) := by
  refine ⟨?_, ?_, ?_, ?_, ?_⟩
  · intro responses h0
    refine runRetryLoop_first_err_stop _ _ _ _ _ ?_ (by decide)
    show imageAttempt (responses 0) = .err imgBlockedMsg
    rw [h0]
    rfl
  · intro m responses hm h0
    refine runRetryLoop_first_err_stop _ _ _ _ _ ?_ hm
    show imageAttempt (responses 0) = .err m
    rw [h0]
    rfl
  · intro numScenes m responses hm h0
    refine runRetryLoop_first_err_stop _ _ _ _ _ ?_ hm
    show storyAttempt numScenes (responses 0) = .err m
    rw [h0]
    rfl
  · intro m responses hm h0
    refine runRetryLoop_first_err_stop _ _ _ _ _ ?_ hm
    show promptsAttempt (responses 0) = .err m
    rw [h0]
    rfl
  · intro m responses hm h0
    refine runRetryLoop_first_err_stop _ _ _ _ _ ?_ hm
    show audioAttempt (responses 0) = .err m
    rw [h0]
    rfl

/-- **C8, witness.** -/
theorem c8_non_rate_limit_fail_fast_witness :
    generateImageFromPrompt (fun _ => .parts none) = ⟨.error imgBlockedMsg, []⟩ ∧
    generateStoryFromTopic 8 (fun _ => .apiError "network down")
      = ⟨.error "network down", []⟩ :=
  ⟨c8_non_rate_limit_fail_fast.1 (fun _ => .parts none) rfl,
    c8_non_rate_limit_fail_fast.2.2.1 8 "network down" (fun _ => .apiError "network down")
      (by decide) rfl⟩

/-! ## Lemmas about the scene store -/

theorem applyUpdate_id (s : Scene) (u : SceneUpdate) : (applyUpdate s u).id = s.id := rfl

theorem updateScene_length (scenes : List Scene) (sceneId : Nat) (u : SceneUpdate) :
    (updateScene scenes sceneId u).length = scenes.length := by
  simp [updateScene]

theorem updateScene_getElem? (scenes : List Scene) (sceneId : Nat) (u : SceneUpdate)
    (k : Nat) :
    (updateScene scenes sceneId u)[k]?
      = (scenes[k]?).map (fun s => if s.id == sceneId then applyUpdate s u else s) := by
  simp [updateScene]

theorem updateScene_eq_self (scenes : List Scene) (sceneId : Nat) (u : SceneUpdate)
    (h : ∀ s ∈ scenes, s.id ≠ sceneId) : updateScene scenes sceneId u = scenes := by
  unfold updateScene
  conv_rhs => rw [← List.map_id scenes]
  refine List.map_congr_left ?_
  intro s hs
  rw [if_neg (by simpa using h s hs)]
  rfl

/-! ## Claim C10 -/

/-- **C10 (confirmed).**  `updateScene(sceneId, updates)` preserves the length
and order of the scene list, leaves every scene whose id differs from
`sceneId` unchanged, and is a no-op when no scene has the given id. -/
theorem c10_updateScene_frame (scenes : List Scene) (sceneId : Nat)
    (updates : SceneUpdate) :
    (updateScene scenes sceneId updates).length = scenes.length ∧
    (∀ (k : Nat) (s : Scene), scenes[k]? = some s → s.id ≠ sceneId →
      (updateScene scenes sceneId updates)[k]? = some s) ∧
    ((∀ s ∈ scenes, s.id ≠ sceneId) → updateScene scenes sceneId updates = scenes) := by
  refine ⟨updateScene_length scenes sceneId updates, ?_, updateScene_eq_self scenes sceneId updates⟩
  intro k s hk hid
  rw [updateScene_getElem?, hk]
  simp only [Option.map_some']
  rw [if_neg (by simpa using hid)]

/-- **C10, witness.** -/
theorem c10_updateScene_frame_witness :
    updateScene
        [⟨1, "a", [], [], [], none, false, false, false⟩,
          ⟨2, "b", [], [], [], none, false, false, false⟩]
        99 { description := some "changed" }
      = [⟨1, "a", [], [], [], none, false, false, false⟩,
          ⟨2, "b", [], [], [], none, false, false, false⟩] :=
  (c10_updateScene_frame
      [⟨1, "a", [], [], [], none, false, false, false⟩,
        ⟨2, "b", [], [], [], none, false, false, false⟩]
      99 { description := some "changed" }).2.2 (by decide)

/-! ## Claim C2 -/

/-- **C2, counterexample.**  The claim states that after a prompt
regeneration the scene's images array length equals its new prompts array
length.  In the source the success path stores
`{ prompts, imageUrls: [], imageBlobs: [] }`, so after regenerating three
prompts the image arrays have length 0, not 3. -/
theorem c2_counterexample :
    (handleGeneratePromptsForScene
        [⟨1, "d", [], [some "old"], [some [7]], none, false, false, false⟩]
        1 (Except.ok ["p1", "p2", "p3"])).1
      = [⟨1, "d", ["p1", "p2", "p3"], [], [], none, false, false, false⟩] ∧
    List.length ([] : List (Option String)) ≠ List.length ["p1", "p2", "p3"] :=
  ⟨by decide, by decide⟩

/-- **C2 (amended).**  After a successful prompt regeneration for a scene
that exists in the store, that scene holds the new prompts, its busy flag
is reset, and both image arrays are reset to the empty array `[]` — every
image slot is empty (no filled slot survives), but the arrays have length
0, not `prompts.length`.  All other scenes are unchanged. -/
theorem c2_prompt_regen_amended (scenes : List Scene) (sceneId : Nat)
    (prompts : List String)
    (hfind : (scenes.find? (fun s => s.id == sceneId)).isSome = true) :
    (handleGeneratePromptsForScene scenes sceneId (Except.ok prompts)).2 = .ok () ∧
    (handleGeneratePromptsForScene scenes sceneId (Except.ok prompts)).1.length
      = scenes.length ∧
    (∀ (k : Nat) (s : Scene), scenes[k]? = some s →
      (s.id = sceneId →
        (handleGeneratePromptsForScene scenes sceneId (Except.ok prompts)).1[k]?
          = some { s with
                    prompts := prompts
                    imageUrls := []
                    imageBlobs := []
                    isPromptLoading := false }) ∧
      (s.id ≠ sceneId →
        (handleGeneratePromptsForScene scenes sceneId (Except.ok prompts)).1[k]?
          = some s)) := by
  obtain ⟨sc, hsc⟩ := Option.isSome_iff_exists.mp hfind
  have hunf : handleGeneratePromptsForScene scenes sceneId (Except.ok prompts)
      = (updateScene
          (updateScene (updateScene scenes sceneId { isPromptLoading := some true })
            sceneId { prompts := some prompts, imageUrls := some [], imageBlobs := some [] })
          sceneId { isPromptLoading := some false }, Except.ok ()) := by
    unfold handleGeneratePromptsForScene
    rw [hsc]
  refine ⟨by rw [hunf], by rw [hunf]; simp [updateScene_length], ?_⟩
  intro k s hk
  constructor
  · intro hid
    rw [hunf]
    simp only [updateScene_getElem?, hk, Option.map_some']
    simp [applyUpdate, hid]
  · intro hid
    rw [hunf]
    have hb : (s.id == sceneId) = false := by simpa using hid
    simp only [updateScene_getElem?, hk, Option.map_some']
    simp [hb]

/-- **C2, witness.** -/
theorem c2_prompt_regen_amended_witness :
    (handleGeneratePromptsForScene
        [⟨1, "d", ["old"], [some "u"], [some [7]], none, false, false, false⟩]
        1 (Except.ok ["p1", "p2"])).1[0]?
      = some ⟨1, "d", ["p1", "p2"], [], [], none, false, false, false⟩ :=
  ((c2_prompt_regen_amended
      [⟨1, "d", ["old"], [some "u"], [some [7]], none, false, false, false⟩]
      1 ["p1", "p2"] (by decide)).2.2 0
      ⟨1, "d", ["old"], [some "u"], [some [7]], none, false, false, false⟩ rfl).1 rfl

/-! ## Claim C7 -/

/-- **C7, counterexample.**  The claim states that the explicit image-clear
preserves the scene's slot count (same length as before, equal to the
prompts length).  The source replaces both arrays by
`Array(numVariations).fill(null)` where `numVariations` is the *current*
images-per-scene setting: clearing a 3-slot scene while the setting is 5
yields arrays of length 5, not 3. -/
theorem c7_counterexample :
    handleClearSceneImages
        [⟨1, "d", ["p1", "p2", "p3"], [some "u1", some "u2", some "u3"],
          [some [1], some [2], some [3]], none, false, false, false⟩] 1 5
      = [⟨1, "d", ["p1", "p2", "p3"], List.replicate 5 none, List.replicate 5 none,
          none, false, false, false⟩] ∧
    (List.replicate 5 (none : Option String)).length ≠ List.length ["p1", "p2", "p3"] :=
  ⟨by decide, by decide⟩

/-- **C7 (amended).**  The explicit image-clear for a scene resets both image
arrays to `numVariations` empty slots (every slot is unfilled), leaves all
other scenes unchanged, and preserves the store length.  The resulting slot
count is the current images-per-scene setting `numVariations` — it equals
the scene's previous slot count (and its prompts length) exactly when that
setting still matches them, but not in general. -/
theorem c7_clear_images_amended (scenes : List Scene) (sceneId numVariations : Nat) :
    (handleClearSceneImages scenes sceneId numVariations).length = scenes.length ∧
    (∀ (k : Nat) (s : Scene), scenes[k]? = some s →
      (s.id = sceneId →
        (handleClearSceneImages scenes sceneId numVariations)[k]?
          = some { s with
                    imageUrls := List.replicate numVariations none
                    imageBlobs := List.replicate numVariations none }) ∧
      (s.id ≠ sceneId →
        (handleClearSceneImages scenes sceneId numVariations)[k]? = some s)) ∧
    (∀ o ∈ List.replicate numVariations (none : Option String), slotFilled o = false) := by
  refine ⟨by simp [handleClearSceneImages, updateScene_length], ?_, ?_⟩
  · intro k s hk
    constructor
    · intro hid
      unfold handleClearSceneImages
      rw [updateScene_getElem?, hk]
      simp only [Option.map_some']
      simp [applyUpdate, hid]
    · intro hid
      unfold handleClearSceneImages
      rw [updateScene_getElem?, hk]
      simp only [Option.map_some']
      rw [if_neg (by simpa using hid)]
  · intro o ho
    rw [List.eq_of_mem_replicate ho]
    rfl

/-! ## Lemmas about JS array assignment and slot preservation -/

theorem jsSet_getD {α : Type} :
    ∀ (l : List (Option α)) (i j : Nat) (v : α),
      (jsSet l i v).getD j none = if j = i then some v else l.getD j none
  | [], 0, j, v => by cases j <;> simp [jsSet]
  | [], n + 1, j, v => by
    cases j with
    | zero => simp [jsSet]
    | succ m =>
      simp only [jsSet, List.getD_cons_succ]
      rw [jsSet_getD [] n m v]
      have he : (m + 1 = n + 1) ↔ (m = n) := by omega
      simp [he]
  | _ :: t, 0, j, v => by cases j <;> simp [jsSet]
  | h :: t, n + 1, j, v => by
    cases j with
    | zero => simp [jsSet]
    | succ m =>
      simp only [jsSet, List.getD_cons_succ]
      rw [jsSet_getD t n m v]
      have he : (m + 1 = n + 1) ↔ (m = n) := by omega
      simp [he]

theorem slotsPreserved_refl (l : List (Option String)) : slotsPreserved l l :=
  fun _ _ => rfl

theorem slotsPreserved_trans {a b c : List (Option String)}
    (h1 : slotsPreserved a b) (h2 : slotsPreserved b c) : slotsPreserved a c := by
  intro j hj
  rw [h2 j (by rw [h1 j hj]; exact hj), h1 j hj]

/-- Writing to an unfilled slot preserves every filled slot. -/
theorem jsSet_slotsPreserved {urls : List (Option String)} {i : Nat} {v : String}
    (hf : slotFilled (urls.getD i none) = false) :
    slotsPreserved urls (jsSet urls i v) := by
  intro j hj
  rw [jsSet_getD]
  rw [if_neg (by intro he; rw [he] at hj; rw [hj] at hf; cases hf)]

/-! ## Lemmas about composing scene updates -/

theorem getD_orElse {α : Type} (o1 o2 : Option α) (x : α) :
    (o2.orElse (fun _ => o1)).getD x = o2.getD (o1.getD x) := by
  cases o2 <;> rfl

theorem applyUpdate_applyUpdate (s : Scene) (u1 u2 : SceneUpdate) :
    applyUpdate (applyUpdate s u1) u2 = applyUpdate s (u1.merge u2) := by
  simp [applyUpdate, SceneUpdate.merge, getD_orElse]

theorem updateScene_updateScene (scenes : List Scene) (sceneId : Nat)
    (u1 u2 : SceneUpdate) :
    updateScene (updateScene scenes sceneId u1) sceneId u2
      = updateScene scenes sceneId (u1.merge u2) := by
  unfold updateScene
  rw [List.map_map]
  refine List.map_congr_left ?_
  intro s _
  by_cases h : (s.id == sceneId) = true
  · simp [Function.comp, h, applyUpdate_id, applyUpdate_applyUpdate]
  · simp [Function.comp, h]

/-! ## Lemmas about the image-generation loop -/

/-- The loop either leaves the store untouched or replaces the target scene's
image arrays by a pair that preserves every filled slot of the initial
working copy. -/
theorem genImagesLoop_shape (cf : Nat → Bool) (gen : Nat → String → Except String ImgResult)
    (sceneId : Nat) (prompts : List String) :
    ∀ (idxs : List Nat) (urls : List (Option String)) (blobs : List (Option Blob))
      (scenes : List Scene) (calls : Nat),
      (genImagesLoop cf gen sceneId prompts idxs urls blobs scenes calls).1 = scenes ∨
      ∃ urls2 blobs2, slotsPreserved urls urls2 ∧
        (genImagesLoop cf gen sceneId prompts idxs urls blobs scenes calls).1
          = updateScene scenes sceneId (imgUpd urls2 blobs2) := by
  intro idxs
  induction idxs with
  | nil => intro urls blobs scenes calls; left; rfl
  | cons i rest ih =>
    intro urls blobs scenes calls
    rw [genImagesLoop]
    by_cases hc : cf calls
    · rw [if_pos hc]; left; rfl
    · rw [if_neg hc]
      by_cases hf : slotFilled (urls.getD i none)
      · rw [if_pos hf]
        exact ih urls blobs scenes calls
      · rw [if_neg hf]
        cases hg : gen calls (prompts.getD i "") with
        | error msg => left; rfl
        | ok r =>
          rcases ih (jsSet urls i r.dataUrl) (jsSet blobs i r.blob)
              (updateScene scenes sceneId
                (imgUpd (jsSet urls i r.dataUrl) (jsSet blobs i r.blob))) (calls + 1) with
            hL | ⟨u3, b3, hpres, hR⟩
          · right
            refine ⟨jsSet urls i r.dataUrl, jsSet blobs i r.blob,
              jsSet_slotsPreserved (by simpa using hf), ?_⟩
            rw [hL]
          · right
            refine ⟨u3, b3,
              slotsPreserved_trans (jsSet_slotsPreserved (by simpa using hf)) hpres, ?_⟩
            rw [hR, updateScene_updateScene]
            rfl

/-- If every index of the loop already holds a filled slot, the loop makes no
remote call and leaves the store untouched. -/
theorem genImagesLoop_all_filled (cf : Nat → Bool)
    (gen : Nat → String → Except String ImgResult) (sceneId : Nat) (prompts : List String) :
    ∀ (idxs : List Nat) (urls : List (Option String)) (blobs : List (Option Blob))
      (scenes : List Scene) (calls : Nat),
      (∀ i ∈ idxs, slotFilled (urls.getD i none) = true) →
      (genImagesLoop cf gen sceneId prompts idxs urls blobs scenes calls).1 = scenes ∧
      (genImagesLoop cf gen sceneId prompts idxs urls blobs scenes calls).2.1 = calls := by
  intro idxs
  induction idxs with
  | nil => intro urls blobs scenes calls _; exact ⟨rfl, rfl⟩
  | cons i rest ih =>
    intro urls blobs scenes calls hall
    rw [genImagesLoop]
    by_cases hc : cf calls
    · rw [if_pos hc]; exact ⟨rfl, rfl⟩
    · rw [if_neg hc, if_pos (hall i (by simp))]
      exact ih urls blobs scenes calls (fun j hj => hall j (by simp [hj]))

/-! ## Claim C6 -/

/-- **C6 (confirmed).**  `handleGenerateImagesForScene` for an existing scene
with prompts: (a) it never overwrites an already-filled image slot of that
scene, never touches any scene with a different id, and never changes
prompts; (b) when all of the scene's slots are already filled, the call
makes no remote image call and leaves every scene's images and prompts
(and the whole store, up to the busy-flag round trip) unchanged. -/
theorem c6_image_fill_idempotent (cf : Nat → Bool)
    (gen : Nat → String → Except String ImgResult)
    (scenes : List Scene) (sceneId : Nat) (calls : Nat) (scene : Scene)
    (hsc : scenes.find? (fun s => s.id == sceneId) = some scene)
    (hne : scene.prompts.length ≠ 0) :
    (∀ (k : Nat) (s : Scene), scenes[k]? = some s →
      ∃ s', (handleGenerateImagesForScene cf gen scenes sceneId calls).1[k]? = some s' ∧
        s'.prompts = s.prompts ∧
        (s.id ≠ sceneId → s' = s) ∧
        (s = scene → ∀ j : Nat, slotFilled (s.imageUrls.getD j none) = true →
          s'.imageUrls.getD j none = s.imageUrls.getD j none)) ∧
    ((∀ i : Nat, i < scene.prompts.length →
        slotFilled (scene.imageUrls.getD i none) = true) →
      (handleGenerateImagesForScene cf gen scenes sceneId calls).2.1 = calls ∧
      ∀ (k : Nat) (s : Scene), scenes[k]? = some s →
        ∃ s', (handleGenerateImagesForScene cf gen scenes sceneId calls).1[k]? = some s' ∧
          s'.imageUrls = s.imageUrls ∧ s'.imageBlobs = s.imageBlobs ∧
          s'.prompts = s.prompts) := by
  have hunf1 : (handleGenerateImagesForScene cf gen scenes sceneId calls).1
      = updateScene
          (genImagesLoop cf gen sceneId scene.prompts (List.range scene.prompts.length)
            scene.imageUrls scene.imageBlobs
            (updateScene scenes sceneId { isImageLoading := some true }) calls).1
          sceneId { isImageLoading := some false } := by
    unfold handleGenerateImagesForScene
    rw [hsc]
    dsimp only
    rw [if_neg hne]
  have hunf2 : (handleGenerateImagesForScene cf gen scenes sceneId calls).2.1
      = (genImagesLoop cf gen sceneId scene.prompts (List.range scene.prompts.length)
          scene.imageUrls scene.imageBlobs
          (updateScene scenes sceneId { isImageLoading := some true }) calls).2.1 := by
    unfold handleGenerateImagesForScene
    rw [hsc]
    dsimp only
    rw [if_neg hne]
  constructor
  · intro k s hk
    rcases genImagesLoop_shape cf gen sceneId scene.prompts
        (List.range scene.prompts.length) scene.imageUrls scene.imageBlobs
        (updateScene scenes sceneId { isImageLoading := some true }) calls with
      hL | ⟨u2, b2, hpres, hR⟩
    · rw [hunf1, hL, updateScene_updateScene]
      rw [updateScene_getElem?, hk]
      simp only [Option.map_some']
      by_cases hid : s.id = sceneId
      · refine ⟨_, rfl, ?_, ?_, ?_⟩
        · rw [if_pos (by simpa using hid)]; rfl
        · intro hcon; exact absurd hid hcon
        · intro _ j _
          rw [if_pos (by simpa using hid)]
          rfl
      · refine ⟨_, rfl, ?_, ?_, ?_⟩
        · rw [if_neg (by simpa using hid)]
        · intro _; rw [if_neg (by simpa using hid)]
        · intro _ j _; rw [if_neg (by simpa using hid)]
    · rw [hunf1, hR, updateScene_updateScene, updateScene_updateScene]
      rw [updateScene_getElem?, hk]
      simp only [Option.map_some']
      by_cases hid : s.id = sceneId
      · refine ⟨_, rfl, ?_, ?_, ?_⟩
        · rw [if_pos (by simpa using hid)]; rfl
        · intro hcon; exact absurd hid hcon
        · intro hs j hj
          rw [if_pos (by simpa using hid)]
          show u2.getD j none = s.imageUrls.getD j none
          rw [hs]
          exact hpres j (by rw [← hs]; exact hj)
      · refine ⟨_, rfl, ?_, ?_, ?_⟩
        · rw [if_neg (by simpa using hid)]
        · intro _; rw [if_neg (by simpa using hid)]
        · intro _ j _; rw [if_neg (by simpa using hid)]
  · intro hall
    have hloop := genImagesLoop_all_filled cf gen sceneId scene.prompts
      (List.range scene.prompts.length) scene.imageUrls scene.imageBlobs
      (updateScene scenes sceneId { isImageLoading := some true }) calls
      (fun i hi => hall i (List.mem_range.mp hi))
    refine ⟨by rw [hunf2, hloop.2], ?_⟩
    intro k s hk
    rw [hunf1, hloop.1, updateScene_updateScene]
    rw [updateScene_getElem?, hk]
    simp only [Option.map_some']
    by_cases hid : s.id = sceneId
    · rw [if_pos (by simpa using hid)]
      exact ⟨_, rfl, rfl, rfl, rfl⟩
    · rw [if_neg (by simpa using hid)]
      exact ⟨_, rfl, rfl, rfl, rfl⟩

/-- **C6, witness.** -/
theorem c6_image_fill_idempotent_witness :
    (handleGenerateImagesForScene (fun _ => false) (fun c _ => .ok ⟨"du", [c]⟩)
        [⟨1, "d", ["p1"], [some "u1"], [some [9]], none, false, false, false⟩]
        1 0).2.1 = 0 :=
  ((c6_image_fill_idempotent (fun _ => false) (fun c _ => .ok ⟨"du", [c]⟩)
      [⟨1, "d", ["p1"], [some "u1"], [some [9]], none, false, false, false⟩] 1 0
      ⟨1, "d", ["p1"], [some "u1"], [some [9]], none, false, false, false⟩
      (by decide) (by decide)).2 (by decide)).1

/-! ## Lemmas for cancellation and run-level retention (claim C5) -/

/-- With pairwise-distinct ids, any stored scene carrying the looked-up id is
the scene returned by `find?`. -/
theorem find?_id_unique (scenes : List Scene)
    (hp : scenes.Pairwise (fun a b => a.id ≠ b.id)) (sceneId : Nat) (scene : Scene)
    (hfind : scenes.find? (fun x => x.id == sceneId) = some scene)
    (k : Nat) (s : Scene) (hk : scenes[k]? = some s) (hsid : s.id = sceneId) :
    s = scene := by
  have hmem : scene ∈ scenes := List.mem_of_find?_eq_some hfind
  have hsceneid : scene.id = sceneId := by simpa using List.find?_some hfind
  obtain ⟨m, hmlt, hm⟩ := List.getElem_of_mem hmem
  have hklt : k < scenes.length := by
    by_contra hge
    rw [List.getElem?_eq_none (by omega)] at hk
    cases hk
  have hks : scenes[k] = s := by
    have h := List.getElem?_eq_getElem hklt
    rw [h] at hk
    exact Option.some.inj hk
  rcases Nat.lt_trichotomy k m with h | h | h
  · have hR := (List.pairwise_iff_getElem.mp hp) k m hklt hmlt h
    rw [hks, hm] at hR
    exact absurd (by rw [hsid, hsceneid]) hR
  · subst h
    rw [← hks]
    exact hm
  · have hR := (List.pairwise_iff_getElem.mp hp) m k hmlt hklt h
    rw [hks, hm] at hR
    exact absurd (by rw [hsid, hsceneid]) hR

theorem storeSlotsPreserved_refl (l : List Scene) : storeSlotsPreserved l l :=
  ⟨rfl, fun _ s hk => ⟨s, hk, rfl, rfl, fun _ _ => rfl⟩⟩

theorem storeSlotsPreserved_trans {a b c : List Scene}
    (h1 : storeSlotsPreserved a b) (h2 : storeSlotsPreserved b c) :
    storeSlotsPreserved a c := by
  refine ⟨h2.1.trans h1.1, ?_⟩
  intro k s hk
  obtain ⟨s1, hk1, hid1, hp1, hs1⟩ := h1.2 k s hk
  obtain ⟨s2, hk2, hid2, hp2, hs2⟩ := h2.2 k s1 hk1
  refine ⟨s2, hk2, hid2.trans hid1, hp2.trans hp1, ?_⟩
  intro j hj
  rw [hs2 j (by rw [hs1 j hj]; exact hj), hs1 j hj]

theorem storeSlotsPreserved_pairwise {a b : List Scene}
    (h : storeSlotsPreserved a b) (hp : a.Pairwise (fun x y => x.id ≠ y.id)) :
    b.Pairwise (fun x y => x.id ≠ y.id) := by
  rw [List.pairwise_iff_getElem] at hp ⊢
  intro i j hi hj hij
  have hia : i < a.length := by rw [← h.1]; exact hi
  have hja : j < a.length := by rw [← h.1]; exact hj
  obtain ⟨si, hki, hidi, _, _⟩ := h.2 i a[i] (List.getElem?_eq_getElem hia)
  obtain ⟨sj, hkj, hidj, _, _⟩ := h.2 j a[j] (List.getElem?_eq_getElem hja)
  rw [List.getElem?_eq_getElem hi] at hki
  rw [List.getElem?_eq_getElem hj] at hkj
  rw [← Option.some.inj hki, ← Option.some.inj hkj] at *
  rw [hidi, hidj]
  exact hp i j hia hja hij

/-- One per-scene image-generation call preserves ids, prompts and every
already-filled image slot, positionwise. -/
theorem handleGenImages_storePreserved (cf : Nat → Bool)
    (gen : Nat → String → Except String ImgResult)
    (scenes : List Scene) (sceneId : Nat) (calls : Nat)
    (hp : scenes.Pairwise (fun a b => a.id ≠ b.id)) :
    storeSlotsPreserved scenes
      (handleGenerateImagesForScene cf gen scenes sceneId calls).1 := by
  cases hsc : scenes.find? (fun s => s.id == sceneId) with
  | none =>
    have h1 : (handleGenerateImagesForScene cf gen scenes sceneId calls).1 = scenes := by
      unfold handleGenerateImagesForScene
      rw [hsc]
    rw [h1]
    exact storeSlotsPreserved_refl scenes
  | some scene =>
    by_cases hne : scene.prompts.length = 0
    · have h1 : (handleGenerateImagesForScene cf gen scenes sceneId calls).1 = scenes := by
        unfold handleGenerateImagesForScene
        rw [hsc]
        dsimp only
        rw [if_pos hne]
      rw [h1]
      exact storeSlotsPreserved_refl scenes
    · have hunf1 : (handleGenerateImagesForScene cf gen scenes sceneId calls).1
          = updateScene
              (genImagesLoop cf gen sceneId scene.prompts
                (List.range scene.prompts.length) scene.imageUrls scene.imageBlobs
                (updateScene scenes sceneId { isImageLoading := some true }) calls).1
              sceneId { isImageLoading := some false } := by
        unfold handleGenerateImagesForScene
        rw [hsc]
        dsimp only
        rw [if_neg hne]
      rcases genImagesLoop_shape cf gen sceneId scene.prompts
          (List.range scene.prompts.length) scene.imageUrls scene.imageBlobs
          (updateScene scenes sceneId { isImageLoading := some true }) calls with
        hL | ⟨u2, b2, hpres, hR⟩
      · rw [hunf1, hL, updateScene_updateScene]
        refine ⟨by rw [updateScene_length], ?_⟩
        intro k s hk
        rw [updateScene_getElem?, hk]
        simp only [Option.map_some']
        by_cases hid : (s.id == sceneId) = true
        · rw [if_pos hid]
          exact ⟨_, rfl, rfl, rfl, fun _ _ => rfl⟩
        · rw [if_neg hid]
          exact ⟨s, rfl, rfl, rfl, fun _ _ => rfl⟩
      · rw [hunf1, hR, updateScene_updateScene, updateScene_updateScene]
        refine ⟨by rw [updateScene_length], ?_⟩
        intro k s hk
        rw [updateScene_getElem?, hk]
        simp only [Option.map_some']
        by_cases hid : (s.id == sceneId) = true
        · rw [if_pos hid]
          refine ⟨_, rfl, rfl, rfl, ?_⟩
          intro j hj
          have hs : s = scene :=
            find?_id_unique scenes hp sceneId scene hsc k s hk (by simpa using hid)
          show u2.getD j none = s.imageUrls.getD j none
          rw [hs]
          exact hpres j (by rw [← hs]; exact hj)
        · rw [if_neg hid]
          exact ⟨s, rfl, rfl, rfl, fun _ _ => rfl⟩

/-- The whole images stage preserves ids, prompts and every already-filled
image slot: images completed before a cancellation (or error) are retained. -/
theorem imagesStage_storePreserved (cf : Nat → Bool)
    (gen : Nat → String → Except String ImgResult) :
    ∀ (ids : List Nat) (scenes : List Scene) (calls : Nat),
      scenes.Pairwise (fun a b => a.id ≠ b.id) →
      storeSlotsPreserved scenes (imagesStage cf gen ids scenes calls).1 := by
  intro ids
  induction ids with
  | nil => intro scenes calls _; exact storeSlotsPreserved_refl scenes
  | cons i rest ih =>
    intro scenes calls hp
    rw [imagesStage]
    by_cases hc : cf calls
    · rw [if_pos hc]
      exact storeSlotsPreserved_refl scenes
    · rw [if_neg hc]
      rcases hh : handleGenerateImagesForScene cf gen scenes i calls with
        ⟨scenes2, calls2, res⟩
      have hpres : storeSlotsPreserved scenes scenes2 := by
        have h := handleGenImages_storePreserved cf gen scenes i calls hp
        rw [hh] at h
        exact h
      cases res with
      | ok u =>
        dsimp only
        exact storeSlotsPreserved_trans hpres
          (ih scenes2 calls2 (storeSlotsPreserved_pairwise hpres hp))
      | error msg =>
        dsimp only
        exact hpres

/-- Length of the busy-flag-clearing fold of the cancel path. -/
theorem foldl_clearFlags_length :
    ∀ (it st : List Scene),
      (it.foldl (fun acc x => updateScene acc x.id clearFlagsUpd) st).length = st.length
  | [], _ => rfl
  | x :: it, st => by
    rw [List.foldl_cons, foldl_clearFlags_length it _, updateScene_length]

/-- Positionwise effect of the busy-flag-clearing fold: ids are kept, cleared
flags stay cleared, and a scene whose id occurs in the iterated list ends
with all three flags cleared. -/
theorem foldl_clearFlags_getElem? :
    ∀ (it st : List Scene) (k : Nat) (s : Scene), st[k]? = some s →
      ∃ s', (it.foldl (fun acc x => updateScene acc x.id clearFlagsUpd) st)[k]?
          = some s' ∧
        s'.id = s.id ∧
        ((s.isImageLoading = false ∧ s.isPromptLoading = false ∧
            s.isAudioLoading = false) →
          (s'.isImageLoading = false ∧ s'.isPromptLoading = false ∧
            s'.isAudioLoading = false)) ∧
        ((∃ x ∈ it, x.id = s.id) →
          (s'.isImageLoading = false ∧ s'.isPromptLoading = false ∧
            s'.isAudioLoading = false))
  | [], st, k, s, hk =>
    ⟨s, hk, rfl, fun h => h, by
      rintro ⟨x, hx, _⟩
      exact absurd hx (List.not_mem_nil x)⟩
  | x :: it, st, k, s, hk => by
    have hk1 : (updateScene st x.id clearFlagsUpd)[k]?
        = some (if (s.id == x.id) = true then applyUpdate s clearFlagsUpd else s) := by
      rw [updateScene_getElem?, hk]
      simp only [Option.map_some']
    obtain ⟨s', h1, h2, h3, h4⟩ :=
      foldl_clearFlags_getElem? it (updateScene st x.id clearFlagsUpd) k _ hk1
    refine ⟨s', by rw [List.foldl_cons]; exact h1, ?_, ?_, ?_⟩
    · rw [h2]
      by_cases hb : (s.id == x.id) = true
      · rw [if_pos hb]
        rfl
      · rw [if_neg hb]
    · intro hc
      apply h3
      by_cases hb : (s.id == x.id) = true
      · rw [if_pos hb]
        exact ⟨rfl, rfl, rfl⟩
      · rw [if_neg hb]
        exact hc
    · rintro ⟨y, hy, hyid⟩
      rcases List.mem_cons.mp hy with rfl | hy'
      · apply h3
        rw [if_pos (by simp [hyid])]
        exact ⟨rfl, rfl, rfl⟩
      · apply h4
        refine ⟨y, hy', ?_⟩
        rw [hyid]
        by_cases hb : (s.id == x.id) = true
        · rw [if_pos hb]
          rfl
        · rw [if_neg hb]

/-- The cancel path sets the error banner and force-clears all three busy
flags on every scene. -/
theorem cancelAssetsRun_spec (scenes : List Scene) :
    (cancelAssetsRun scenes).2 = some "Process cancelled by user." ∧
    ∀ s' ∈ (cancelAssetsRun scenes).1,
      s'.isImageLoading = false ∧ s'.isPromptLoading = false ∧
        s'.isAudioLoading = false := by
  refine ⟨rfl, ?_⟩
  intro s' hmem
  obtain ⟨k, hk⟩ := List.mem_iff_getElem?.mp hmem
  have hklt : k < scenes.length := by
    by_contra hge
    have : (cancelAssetsRun scenes).1.length ≤ k := by
      show (scenes.foldl (fun st s => updateScene st s.id clearFlagsUpd) scenes).length ≤ k
      rw [foldl_clearFlags_length]
      omega
    rw [List.getElem?_eq_none this] at hk
    cases hk
  obtain ⟨s'', h1, _, _, h4⟩ := foldl_clearFlags_getElem? scenes scenes k scenes[k]
    (List.getElem?_eq_getElem hklt)
  have hss : s'' = s' := by
    have hk' : (cancelAssetsRun scenes).1[k]? = some s'' := h1
    rw [hk] at hk'
    exact (Option.some.inj hk').symm
  rw [← hss]
  exact h4 ⟨scenes[k], List.getElem_mem hklt, rfl⟩

/-! ## Claim C5 -/

/-- **C5, counterexample.**  The claim states the cancellation outcome "is
not surfaced to the user as an error".  The cancel path itself
(`handleGenerateAssets`, line 330) calls
`setError("Process cancelled by user.")`, so the user-visible error banner
is set, not left empty. -/
theorem c5_counterexample :
    (cancelAssetsRun
        [⟨1, "d", ["p1"], [some "u1"], [some [1]], none, false, true, false⟩]).2
      = some "Process cancelled by user." ∧
    (some "Process cancelled by user." : Option String) ≠ none :=
  ⟨rfl, by decide⟩

/-- **C5 (amended).**  When a run is cancelled: the cancel path stops the run
and force-clears all three busy flags on every scene — but it surfaces the
message "Process cancelled by user." in the error banner (the claim's
"not surfaced as an error" part fails; only the *thrown* cancellation
exception is swallowed by the run's catch block, which leaves the banner
unchanged for any message containing "cancelled").  Once the cancellation
flag is set, the images stage stops before attempting any further scene
(store and call count unchanged, outcome "Operation cancelled."), and the
whole stage always retains every image slot filled before the stop.  The
spec's end-to-end scenario holds: 8 one-prompt scenes with the flag set
after 3 completed images leave scenes 1-3 with their images, scenes 4-8
without any attempt, and all busy flags cleared. -/
theorem c5_cancellation_amended :
    (∀ scenes : List Scene,
      (cancelAssetsRun scenes).2 = some "Process cancelled by user." ∧
      ∀ s' ∈ (cancelAssetsRun scenes).1,
        s'.isImageLoading = false ∧ s'.isPromptLoading = false ∧
          s'.isAudioLoading = false) ∧
    (∀ (cf : Nat → Bool) (gen : Nat → String → Except String ImgResult)
        (sceneId : Nat) (rest : List Nat) (scenes : List Scene) (calls : Nat),
      cf calls = true →
      imagesStage cf gen (sceneId :: rest) scenes calls
        = (scenes, calls, .error "Operation cancelled.")) ∧
    (∀ banner : Option String, assetsCatch "Operation cancelled." banner = banner) ∧
    (∀ (cf : Nat → Bool) (gen : Nat → String → Except String ImgResult)
        (ids : List Nat) (scenes : List Scene) (calls : Nat),
      scenes.Pairwise (fun a b => a.id ≠ b.id) →
      storeSlotsPreserved scenes (imagesStage cf gen ids scenes calls).1) ∧
    imagesStage (fun c => decide (3 ≤ c)) (fun _ _ => .ok ⟨"u", []⟩)
        (scenarioScenes.map (fun s => s.id)) scenarioScenes 0
      = ((List.range 8).map (fun i =>
            if i < 3 then
              ⟨i + 1, "scene", ["prompt"], [some "u"], [some []],
                none, false, false, false⟩
            else
              ⟨i + 1, "scene", ["prompt"], [], [], none, false, false, false⟩),
          3, .error "Operation cancelled.") := by
  refine ⟨cancelAssetsRun_spec, ?_, ?_, ?_, by decide⟩
  · intro cf gen sceneId rest scenes calls hc
    rw [imagesStage, if_pos hc]
  · intro banner
    unfold assetsCatch
    rw [if_pos (by decide)]
  · intro cf gen ids scenes calls hp
    exact imagesStage_storePreserved cf gen ids scenes calls hp

/-- **C5, witness.** -/
theorem c5_cancellation_amended_witness :
    imagesStage (fun _ => true) (fun _ _ => .error "x") [1]
        [⟨1, "d", ["p"], [], [], none, false, false, false⟩] 0
      = ([⟨1, "d", ["p"], [], [], none, false, false, false⟩], 0,
          .error "Operation cancelled.") :=
  c5_cancellation_amended.2.1 (fun _ => true) (fun _ _ => .error "x") 1 []
    [⟨1, "d", ["p"], [], [], none, false, false, false⟩] 0 rfl

/-- **C7, witness.** -/
theorem c7_clear_images_amended_witness :
    (handleClearSceneImages
        [⟨1, "d", ["p1"], [some "u1"], [some [1]], none, false, false, false⟩] 1 1)[0]?
      = some ⟨1, "d", ["p1"], [none], [none], none, false, false, false⟩ := by
  have := ((c7_clear_images_amended
      [⟨1, "d", ["p1"], [some "u1"], [some [1]], none, false, false, false⟩] 1 1).2.1 0
      ⟨1, "d", ["p1"], [some "u1"], [some [1]], none, false, false, false⟩ rfl).1 rfl
  simpa using this

/-! ## Lemmas about PCM decoding (claim C9) -/

theorem bytesToInt16_length : ∀ l : List Nat, (bytesToInt16 l).length = l.length / 2
  | [] => by simp [bytesToInt16]
  | [_] => by simp [bytesToInt16]
  | _ :: _ :: rest => by
    simp only [bytesToInt16, List.length_cons]
    rw [bytesToInt16_length rest]
    omega

theorem toInt16_bounds (lo hi : Nat) :
    -32768 ≤ toInt16 lo hi ∧ toInt16 lo hi ≤ 32767 := by
  unfold toInt16
  have h1 : lo % 256 < 256 := Nat.mod_lt _ (by omega)
  have h2 : hi % 256 < 256 := Nat.mod_lt _ (by omega)
  by_cases h : lo % 256 + 256 * (hi % 256) < 32768
  · rw [if_pos h]
    constructor <;> omega
  · rw [if_neg h]
    constructor <;> omega

theorem bytesToInt16_mem_bounds :
    ∀ (l : List Nat) (v : Int), v ∈ bytesToInt16 l → -32768 ≤ v ∧ v ≤ 32767
  | [], _, hv => by cases hv
  | [_], _, hv => by cases hv
  | lo :: hi :: rest, v, hv => by
    rcases List.mem_cons.mp hv with rfl | hv'
    · exact toInt16_bounds lo hi
    · exact bytesToInt16_mem_bounds rest v hv'

theorem bytesToInt16_getD_bounds (l : List Nat) (i : Nat) :
    -32768 ≤ (bytesToInt16 l).getD i 0 ∧ (bytesToInt16 l).getD i 0 ≤ 32767 := by
  by_cases h : i < (bytesToInt16 l).length
  · have hmem : (bytesToInt16 l).getD i 0 ∈ bytesToInt16 l := by
      rw [List.getD_eq_getElem?_getD, List.getElem?_eq_getElem h]
      exact List.getElem_mem h
    exact bytesToInt16_mem_bounds l _ hmem
  · rw [List.getD_eq_getElem?_getD, List.getElem?_eq_none (by omega)]
    constructor <;> norm_num

/-! ## Claim C9 -/

/-- **C9 (confirmed).**  Decoding a byte buffer holding `N` 16-bit mono
samples at the default 24000 Hz rate yields an audio buffer with `N`
(`= data.length / 2`) frames and duration `N / 24000` seconds, whose single
channel holds, at each index `i`, exactly the `i`-th 16-bit signed sample
divided by 32768 — a value in `[-1, 1)`. -/
theorem c9_decodePcmData_spec (data : List Nat) :
    (decodePcmData data 24000 1).frameCount = data.length / 2 ∧
    (decodePcmData data 24000 1).duration = ((data.length / 2 : Nat) : ℚ) / 24000 ∧
    (decodePcmData data 24000 1).channels
      = [(List.range (data.length / 2)).map
          (fun i => (((bytesToInt16 data).getD i 0 : ℤ) : ℚ) / 32768)] ∧
    ∀ x ∈ (decodePcmData data 24000 1).channels.headD [], -1 ≤ x ∧ x < 1 := by
  have hdef : decodePcmData data 24000 1
      = { sampleRate := 24000, numChannels := 1,
          frameCount := (bytesToInt16 data).length / 1,
          channels := (List.range 1).map (fun channel =>
            (List.range ((bytesToInt16 data).length / 1)).map (fun i =>
              (((bytesToInt16 data).getD (i * 1 + channel) 0 : ℤ) : ℚ) / 32768)) } := rfl
  have hr1 : List.range 1 = [0] := rfl
  have hfc : (decodePcmData data 24000 1).frameCount = data.length / 2 := by
    rw [hdef]
    show (bytesToInt16 data).length / 1 = data.length / 2
    rw [Nat.div_one, bytesToInt16_length]
  have hch : (decodePcmData data 24000 1).channels
      = [(List.range (data.length / 2)).map
          (fun i => (((bytesToInt16 data).getD i 0 : ℤ) : ℚ) / 32768)] := by
    rw [hdef]
    dsimp only
    rw [hr1]
    simp only [List.map_cons, List.map_nil]
    congr 1
    rw [Nat.div_one, bytesToInt16_length]
    refine List.map_congr_left ?_
    intro i _
    rw [Nat.mul_one, Nat.add_zero]
  refine ⟨hfc, ?_, hch, ?_⟩
  · unfold AudioBufferM.duration
    rw [hfc, hdef]
    norm_num
  · intro x hx
    rw [hch] at hx
    simp only [List.headD_cons] at hx
    obtain ⟨i, _, hi⟩ := List.mem_map.mp hx
    obtain ⟨hlb, hub⟩ := bytesToInt16_getD_bounds data i
    constructor
    · rw [← hi, le_div_iff₀ (by norm_num : (0:ℚ) < 32768)]
      have : (-32768 : ℚ) ≤ ((bytesToInt16 data).getD i 0 : ℤ) := by exact_mod_cast hlb
      linarith
    · rw [← hi, div_lt_iff₀ (by norm_num : (0:ℚ) < 32768)]
      have : (((bytesToInt16 data).getD i 0 : ℤ) : ℚ) ≤ 32767 := by exact_mod_cast hub
      linarith

/-! ## Lemmas about slide durations (claim C4) -/

theorem round2_close (q : ℚ) : |round2 q - q| ≤ 1 / 200 := by
  unfold round2
  have h := abs_sub_round (q * 100)
  have heq : ((round (q * 100) : ℤ) : ℚ) / 100 - q
      = -((q * 100 - ((round (q * 100) : ℤ) : ℚ)) / 100) := by
    ring
  rw [heq, abs_neg, abs_div, abs_of_pos (by norm_num : (0:ℚ) < 100)]
  rw [div_le_iff₀ (by norm_num : (0:ℚ) < 100)]
  calc |q * 100 - ((round (q * 100) : ℤ) : ℚ)| ≤ 1 / 2 := h
    _ ≤ 1 / 200 * 100 := by norm_num

theorem flatMap_zip {α β γ : Type} (l : List α) (f : α → List β) (g : α → List γ)
    (h : ∀ x ∈ l, (f x).length = (g x).length) :
    (l.flatMap f).zip (l.flatMap g) = l.flatMap (fun x => (f x).zip (g x)) := by
  induction l with
  | nil => rfl
  | cons a t ih =>
    rw [List.flatMap_cons, List.flatMap_cons, List.flatMap_cons,
      List.zip_append (h a (by simp)), ih (fun x hx => h x (by simp [hx]))]

theorem sceneSlideAudio_eq (scene : Scene) :
    sceneSlideAudio scene
      = match (scene.imageBlobs.filter (fun b => b.isSome)).length with
        | 0 => []
        | m + 1 => scene.audioBlob :: List.replicate m (none : Option Blob) := by
  unfold sceneSlideAudio
  cases hn : (scene.imageBlobs.filter (fun b => b.isSome)).length with
  | zero => rfl
  | succ m =>
    rw [List.range_succ_eq_map, List.map_cons, List.map_map]
    have hhead : (if (0 == 0) = true then scene.audioBlob else none) = scene.audioBlob := rfl
    rw [hhead]
    congr 1
    have hfun : ((fun index => if (index == 0) = true then scene.audioBlob else none)
        ∘ Nat.succ) = (fun _ : Nat => (none : Option Blob)) := by
      funext i
      simp [Function.comp]
    rw [hfun, List.map_const', List.length_range]

theorem sceneSlideAudio_length_eq (isTtsEnabled : Bool)
    (sceneAudioDurations : Nat → Option ℚ) (secondsPerImage : ℚ) (scene : Scene) :
    (sceneSlideAudio scene).length
      = (sceneDurations isTtsEnabled sceneAudioDurations secondsPerImage scene).length := by
  unfold sceneSlideAudio sceneDurations
  by_cases hn : (scene.imageBlobs.filter (fun b => b.isSome)).length > 0
  · rw [if_pos hn]
    by_cases ht : (isTtsEnabled && jsTruthyQ (sceneAudioDurations scene.id)) = true
    · rw [if_pos ht]
      simp only [List.length_map, List.length_range, List.length_cons,
        List.length_replicate]
      omega
    · rw [if_neg ht]
      simp [List.length_map, List.length_range]
  · rw [if_neg hn]
    have hn0 : (scene.imageBlobs.filter (fun b => b.isSome)).length = 0 := by omega
    simp [hn0]

/-! ## Claim C4 -/

/-- **C4, counterexample.**  The claim quantifies over every slide processed
by the assembler.  `createVideo` renders `durations[i]` verbatim and never
consults the audio duration, and `handleGenerateVideo` attaches a scene's
audio blob whenever it exists — while the duration effect only uses the
decoded duration when narration is enabled.  With narration toggled off
after audio was generated, a one-image scene with an audio blob yields the
slide `(some pcm, secondsPerImage)`: the slide has attached audio (of
decoded duration 1/24000 s here) but renders the 3 s default — off by far
more than 0.01 s. -/
theorem c4_counterexample :
    (correspondingAudioBlobs
          [⟨1, "d", ["p"], [some "u"], [some [5]], some [0, 0], false, false, false⟩]).zip
        (computeFlatDurations
          [⟨1, "d", ["p"], [some "u"], [some [5]], some [0, 0], false, false, false⟩]
          false (fun _ => none) 3)
      = [(some [0, 0], 3)] ∧
    ¬ |(3 : ℚ) - (decodePcmData [0, 0] 24000 1).duration| ≤ 1 / 100 :=
  ⟨by decide, by
    intro h
    rw [show (decodePcmData [0, 0] 24000 1).duration = 1 / 24000 from rfl] at h
    rw [abs_of_pos (by norm_num)] at h
    norm_num at h⟩

/-- **C4 (amended).**  In the narration-enabled flow — narration on, every
scene's recorded audio duration equal to its decoded (nonzero) duration —
each slide the assembler processes satisfies: if the slide has attached
audio, its duration entry is the decoded audio duration rounded to two
decimals, hence within 0.01 s of the decoded duration; if it has no audio,
its duration entry is exactly the configured default.  The assembler
(`createVideo`) renders each slide for exactly `durations[i] * 1000` ms (it
starts the audio but never overrides the duration with it), so the rendered
milliseconds obey the scaled bounds.  Outside this flow (narration toggled
off with audio blobs still attached, a zero decoded duration, or manual
duration edits) the audio-duration part can fail — see the counterexample. -/
theorem c4_slide_durations_amended (scenes : List Scene) (audioDurs : Nat → Option ℚ)
    (spi : ℚ)
    (hsome : ∀ s ∈ scenes, ∀ pcm : Blob, s.audioBlob = some pcm →
      audioDurs s.id = some ((decodePcmData pcm 24000 1).duration) ∧
      (decodePcmData pcm 24000 1).duration ≠ 0)
    (hnone : ∀ s ∈ scenes, s.audioBlob = none → audioDurs s.id = none) :
    (∀ p ∈ (correspondingAudioBlobs scenes).zip
        (computeFlatDurations scenes true audioDurs spi),
      (∀ pcm : Blob, p.1 = some pcm →
        p.2 = round2 ((decodePcmData pcm 24000 1).duration) ∧
        |p.2 - (decodePcmData pcm 24000 1).duration| ≤ 1 / 100) ∧
      (p.1 = none → p.2 = spi)) ∧
    (∀ p ∈ (correspondingAudioBlobs scenes).zip
        (createVideoSlideDurationsMs (computeFlatDurations scenes true audioDurs spi)),
      (∀ pcm : Blob, p.1 = some pcm →
        |p.2 - 1000 * (decodePcmData pcm 24000 1).duration| ≤ 10) ∧
      (p.1 = none → p.2 = 1000 * spi)) := by
  have hmain : ∀ p ∈ (correspondingAudioBlobs scenes).zip
      (computeFlatDurations scenes true audioDurs spi),
      (∀ pcm : Blob, p.1 = some pcm →
        p.2 = round2 ((decodePcmData pcm 24000 1).duration) ∧
        |p.2 - (decodePcmData pcm 24000 1).duration| ≤ 1 / 100) ∧
      (p.1 = none → p.2 = spi) := by
    intro p hp
    unfold correspondingAudioBlobs computeFlatDurations at hp
    rw [flatMap_zip scenes sceneSlideAudio _
      (fun x _ => sceneSlideAudio_length_eq true audioDurs spi x)] at hp
    obtain ⟨scene, hscene, hpz⟩ := List.mem_flatMap.mp hp
    rw [sceneSlideAudio_eq scene] at hpz
    cases hab : scene.audioBlob with
    | some pcm =>
      obtain ⟨hdur, hdne⟩ := hsome scene hscene pcm hab
      have htr : (true && jsTruthyQ (audioDurs scene.id)) = true := by
        rw [hdur]
        simp [jsTruthyQ, hdne]
      unfold sceneDurations at hpz
      dsimp only at hpz
      cases hn : (scene.imageBlobs.filter (fun b => b.isSome)).length with
      | zero =>
        rw [hn] at hpz
        rw [if_neg (by omega)] at hpz
        cases hpz
      | succ m =>
        rw [hn] at hpz
        dsimp only at hpz
        rw [if_pos (by omega), htr, if_pos rfl, hab] at hpz
        have hget : (audioDurs scene.id).getD 0 = (decodePcmData pcm 24000 1).duration := by
          rw [hdur]
          rfl
        rw [hget] at hpz
        simp only [Nat.add_sub_cancel] at hpz
        rw [List.zip_cons_cons] at hpz
        rcases List.mem_cons.mp hpz with rfl | htail
        · refine ⟨?_, ?_⟩
          · intro pcm' hpcm'
            have hpp : pcm = pcm' := by simpa using hpcm'
            subst hpp
            refine ⟨rfl, ?_⟩
            calc |round2 ((decodePcmData pcm 24000 1).duration)
                  - (decodePcmData pcm 24000 1).duration| ≤ 1 / 200 :=
                round2_close _
              _ ≤ 1 / 100 := by norm_num
          · intro hcon
            cases hcon
        · obtain ⟨p1, p2⟩ := p
          obtain ⟨h1, h2⟩ := List.of_mem_zip htail
          have hp1 : p1 = none := List.eq_of_mem_replicate h1
          have hp2 : p2 = spi := List.eq_of_mem_replicate h2
          subst hp1
          subst hp2
          exact ⟨fun _ hpcm' => Option.noConfusion hpcm', fun _ => rfl⟩
    | none =>
      have hdn := hnone scene hscene hab
      have htr : (true && jsTruthyQ (audioDurs scene.id)) = false := by
        rw [hdn]
        rfl
      unfold sceneDurations at hpz
      dsimp only at hpz
      cases hn : (scene.imageBlobs.filter (fun b => b.isSome)).length with
      | zero =>
        rw [hn] at hpz
        rw [if_neg (by omega)] at hpz
        cases hpz
      | succ m =>
        rw [hn] at hpz
        dsimp only at hpz
        rw [if_pos (by omega), htr] at hpz
        simp only [Bool.false_eq_true, if_false] at hpz
        rw [hab] at hpz
        rw [show List.replicate (m + 1) spi = spi :: List.replicate m spi from rfl,
          List.zip_cons_cons] at hpz
        rcases List.mem_cons.mp hpz with rfl | htail
        · exact ⟨fun _ hpcm' => Option.noConfusion hpcm', fun _ => rfl⟩
        · obtain ⟨p1, p2⟩ := p
          obtain ⟨h1, h2⟩ := List.of_mem_zip htail
          have hp1 : p1 = none := List.eq_of_mem_replicate h1
          have hp2 : p2 = spi := List.eq_of_mem_replicate h2
          subst hp1
          subst hp2
          exact ⟨fun _ hpcm' => Option.noConfusion hpcm', fun _ => rfl⟩
  refine ⟨hmain, ?_⟩
  intro p hp
  unfold createVideoSlideDurationsMs at hp
  rw [List.zip_map_right] at hp
  obtain ⟨⟨q1, q2⟩, hq, hpq⟩ := List.mem_map.mp hp
  obtain ⟨ha, hb⟩ := hmain (q1, q2) hq
  subst hpq
  constructor
  · intro pcm hpcm
    have hpcm2 : (q1, q2).1 = some pcm := hpcm
    obtain ⟨_, hbound⟩ := ha pcm hpcm2
    have hbound2 : |q2 - (decodePcmData pcm 24000 1).duration| ≤ 1 / 100 := hbound
    show |q2 * 1000 - 1000 * (decodePcmData pcm 24000 1).duration| ≤ 10
    have h1000 : q2 * 1000 - 1000 * (decodePcmData pcm 24000 1).duration
        = 1000 * (q2 - (decodePcmData pcm 24000 1).duration) := by ring
    rw [h1000, abs_mul, abs_of_pos (by norm_num : (0:ℚ) < 1000)]
    calc (1000 : ℚ) * |q2 - (decodePcmData pcm 24000 1).duration|
        ≤ 1000 * (1 / 100) := mul_le_mul_of_nonneg_left hbound2 (by norm_num)
      _ = 10 := by norm_num
  · intro hq1
    have hq12 : (q1, q2).1 = none := hq1
    have hb2 : q2 = spi := hb hq12
    show q2 * 1000 = 1000 * spi
    rw [hb2]
    ring

/-- **C4, witness.** -/
theorem c4_slide_durations_amended_witness :
    ((none : Option Blob), (3 : ℚ)).2 = 3 :=
  ((c4_slide_durations_amended
      [⟨1, "d", ["p"], [some "u"], [some [5]], none, false, false, false⟩]
      (fun _ => none) 3
      (by
        intro s hs pcm hpcm
        have hss : s = ⟨1, "d", ["p"], [some "u"], [some [5]], none,
            false, false, false⟩ := by
          simpa using hs
        subst hss
        exact Option.noConfusion hpcm)
      (fun _ _ _ => rfl)).1
    (none, 3) (by decide)).2 rfl

end YTAuto
